import Mathlib

/-!
# Verification of the 8-puzzle solver (`eight_puzzle.py`)

Shallow embedding of the state/move model, the heuristics, the solvability
check and the A* graph-search engine of `eight_puzzle.py`, together with
theorems settling the specification claims.

States are 3×3 grids, embedded as `List (List Nat)` exactly as the Python
code uses lists of lists.  Python list indexing (including negative-index
wrap-around and the `IndexError` on out-of-range access) is modelled
explicitly; a fallible operation returns `Option`, with `none` standing for
a raised exception.  The search engine is embedded with explicit fuel: the
result `none` means the fuel was exhausted, `some r` means the Python
`while` loop returned `r` after at most `fuel` iterations.
-/

namespace EightPuzzle

/-- A puzzle configuration: the Python code represents it as a list of
list of ints (`state[i][j]`). -/
abbrev State := List (List Nat)

/-- `Problem.goal_state`, the fixed goal grid `[[1,2,3],[4,5,6],[7,8,0]]`. -/
def goal_state : State := [[1, 2, 3], [4, 5, 6], [7, 8, 0]]

/-! ## Python list indexing

`pyIdx n k` normalises the Python index `k` for a list of length `n`:
in-range non-negative indices are used as is, negative indices wrap around
(`l[-1]` is the last element), anything else raises `IndexError`
(modelled as `none`). -/

/-- Normalise a Python index `k` for a list of length `n`:
`some i` with `i < n` on success, `none` models a raised `IndexError`. -/
def pyIdx (n : Nat) (k : Int) : Option Nat :=
  if 0 ≤ k ∧ k < n then some k.toNat
  else if -(n : Int) ≤ k ∧ k < 0 then some (k + n).toNat
  else none

/-- Python `row[k]` for a row of tiles. -/
def pyGetRowEntry (row : List Nat) (k : Int) : Option Nat :=
  (pyIdx row.length k).map fun i => row.getD i 0

/-- Python `state[k]` (selects a row). -/
def pyGetRow (s : State) (k : Int) : Option (List Nat) :=
  (pyIdx s.length k).map fun i => s.getD i []

/-- Python `state[i][j]`. -/
def pyGet2 (s : State) (i j : Int) : Option Nat := do
  let row ← pyGetRow s i
  pyGetRowEntry row j

/-- Python `state[i][j] = v` (returns the updated grid; the original code
mutates a `deepcopy`, which is pure value update). -/
def pySet2 (s : State) (i j : Int) (v : Nat) : Option State := do
  let ri ← pyIdx s.length i
  let row := s.getD ri []
  let ci ← pyIdx row.length j
  pure (s.set ri (row.set ci v))

/-! ## `Problem`: the state and move model -/

/-- `Problem._find_blank`: the first `(i, j)` with `state[i][j] = 0`,
scanning rows then columns over `range 3 × range 3`; `none` when no blank
exists (the Python code returns `(None, None)` there). -/
def find_blank (s : State) : Option (Nat × Nat) :=
  (((List.range 3).map fun i => (List.range 3).map fun j => (i, j)).flatten).find?
    fun p => (s.getD p.1 []).getD p.2 1 = 0

/-- `Problem.operators`: the legal moves for a state, in the order
`up, down, left, right` the Python code appends them.  A state with no
blank would raise a `TypeError` in Python (`None > 0`); that case cannot
arise for valid states and is mapped to `[]`. -/
def operators (s : State) : List String :=
  match find_blank s with
  | none => []
  | some (bi, bj) =>
    (if bi > 0 then ["up"] else []) ++ (if bi < 2 then ["down"] else []) ++
    (if bj > 0 then ["left"] else []) ++ (if bj < 2 then ["right"] else [])

/-- `Problem.result`: apply an operator by swapping the blank with the
target tile.  `none` models a raised exception: an `IndexError` from an
out-of-range list access (e.g. `"down"` with the blank already in the
bottom row reads `state[3]`), or the `TypeError` from blank-less states.
Negative indices wrap around exactly as Python's do.  An unrecognised
operator returns the copied state unchanged. -/
def result (s : State) (operator : String) : Option State :=
  match find_blank s with
  | none =>
    if operator = "up" ∨ operator = "down" ∨ operator = "left" ∨ operator = "right"
    then none else some s
  | some (bi, bj) =>
    let np : Option (Int × Int) :=
      if operator = "up" then some ((bi : Int) - 1, (bj : Int))
      else if operator = "down" then some ((bi : Int) + 1, (bj : Int))
      else if operator = "left" then some ((bi : Int), (bj : Int) - 1)
      else if operator = "right" then some ((bi : Int), (bj : Int) + 1)
      else none
    match np with
    | none => some s
    | some (ni, nj) => do
      let v ← pyGet2 s ni nj
      let s1 ← pySet2 s (bi : Int) (bj : Int) v
      pySet2 s1 ni nj 0

/-- `Problem.goal_test`: exact equality with the goal grid. -/
def goal_test (s : State) : Bool := s == goal_state

/-! ## Solvability check -/

/-- The double loop of `Problem.is_solvable` counting pairs `i < j` with
`tiles[i] > tiles[j]`: for each `i` it counts the `j` in
`range (i+1, len)` whose value is below `tiles[i]`; structurally this is
the head-against-tail recursion below. -/
def inversions : List Nat → Nat
  | [] => 0
  | x :: xs => xs.countP (fun y => y < x) + inversions xs

/-- The specification's formulation of the inversion count: the number of
index pairs `i < j` with `value[i] > value[j]`. -/
def inversionPairs (tiles : List Nat) : Nat :=
  (((List.range tiles.length).map fun i =>
    ((List.range tiles.length).filter fun j => i < j ∧ tiles.getD j 0 < tiles.getD i 0).length)).sum

/-- `Problem.is_solvable`: flatten row-major, drop the blank, return
whether the inversion count is even. -/
def is_solvable (s : State) : Bool :=
  inversions (s.flatten.filter fun t => t ≠ 0) % 2 == 0

/-! ## Heuristics (`class Heuristic`) -/

/-- `Heuristic.uniform_cost`: always 0. -/
def uniform_cost (_ : State) : Nat := 0

/-- `Heuristic.misplaced_tile`: number of non-blank cells differing from
the goal grid. -/
def misplaced_tile (s : State) : Nat :=
  (((List.range 3).map fun i =>
    ((List.range 3).filter fun j =>
      (s.getD i []).getD j 0 ≠ 0 ∧
      (s.getD i []).getD j 0 ≠ (goal_state.getD i []).getD j 0).length)).sum

/-- `Heuristic.manhattan_distance`: sum over non-blank tiles of
`|i - (v-1)/3| + |j - (v-1)%3|`. -/
def manhattan_distance (s : State) : Nat :=
  (((List.range 3).map fun i =>
    (((List.range 3).map fun j =>
      let v := (s.getD i []).getD j 0
      if v ≠ 0 then
        ((i : Int) - ((v - 1) / 3 : Nat)).natAbs + ((j : Int) - ((v - 1) % 3 : Nat)).natAbs
      else 0)).sum)).sum

/-- `Heuristic.euclidean_distance`: sum over non-blank tiles of the
straight-line distance to the goal cell.  The Python value is an IEEE
float; it is modelled as the exact real number it approximates. -/
noncomputable def euclidean_distance (s : State) : ℝ :=
  (((List.range 3).map fun i =>
    (((List.range 3).map fun j =>
      let v := (s.getD i []).getD j 0
      if v ≠ 0 then
        Real.sqrt (((i : ℝ) - ((v - 1) / 3 : Nat)) ^ 2 + ((j : ℝ) - ((v - 1) % 3 : Nat)) ^ 2)
      else 0)).sum)).sum

/-! ## Search nodes -/

/-- `class Node`: a search-tree node.  `heuristic_cost` lives in an
ordered cost type `C` (`Nat` for the integer heuristics, `ℝ` for the
Euclidean one). -/
inductive Node (C : Type) : Type where
  | mk (state : State) (parent : Option (Node C)) (operator : Option String)
       (depth : Nat) (path_cost : Nat) (heuristic_cost : C)

/-- `node.state`. -/
def Node.state : Node C → State
  | .mk s _ _ _ _ _ => s

/-- `node.parent`. -/
def Node.parent : Node C → Option (Node C)
  | .mk _ p _ _ _ _ => p

/-- `node.operator`. -/
def Node.operator : Node C → Option String
  | .mk _ _ op _ _ _ => op

/-- `node.depth`. -/
def Node.depth : Node C → Nat
  | .mk _ _ _ d _ _ => d

/-- `node.path_cost`. -/
def Node.path_cost : Node C → Nat
  | .mk _ _ _ _ pc _ => pc

/-- `node.heuristic_cost`. -/
def Node.heuristic_cost : Node C → C
  | .mk _ _ _ _ _ h => h

/-- `node.g` (the cost from the start, i.e. the depth). -/
def Node.g (n : Node C) : Nat := n.depth

/-- `node.h`. -/
def Node.h (n : Node C) : C := n.heuristic_cost

/-- `node.f = g + h`. -/
def Node.f [Add C] [NatCast C] (n : Node C) : C := (n.g : C) + n.h

/-- The move sequence reconstructed from a goal node by walking `parent`
links and reversing, as `print_solution` does. -/
def solution_path : Node C → List String
  | .mk _ none _ _ _ _ => []
  | .mk _ (some p) op _ _ _ => solution_path p ++ [op.getD ""]

/-! ## The A* graph-search engine (`graph_search`)

The Python frontier is a `heapq` of `(f, counter, node)` triples: a pop
returns the triple that is minimal in lexicographic tuple order, and
since every pushed counter is distinct the `(f, counter)` key alone
decides every comparison (`node.__lt__` is never consulted).  The
embedding keeps the frontier as the plain list of triples and pops the
entry with the lexicographically least `(f, counter)` key. -/

/-- A frontier entry `(f, counter, node)`. -/
abbrev Entry (C : Type) := C × Nat × Node C

/-- Strict lexicographic order on `(f, counter)` keys, exactly the order
`heapq` uses on the tuples (counters being distinct). -/
def keyLt [LinearOrder C] (a b : C × Nat) : Prop :=
  a.1 < b.1 ∨ (a.1 = b.1 ∧ a.2 < b.2)

instance [LinearOrder C] : DecidablePred fun p : (C × Nat) × C × Nat => keyLt p.1 p.2 :=
  fun _ => by unfold keyLt; infer_instance

instance keyLt.decidable [LinearOrder C] (a b : C × Nat) : Decidable (keyLt a b) := by
  unfold keyLt; infer_instance

/-- The entry a `heappop` returns: the one with the least `(f, counter)`
key among `x :: xs`. -/
def pickMin [LinearOrder C] : Entry C → List (Entry C) → Entry C
  | best, [] => best
  | best, e :: rest =>
    if keyLt (e.1, e.2.1) (best.1, best.2.1) then pickMin e rest else pickMin best rest

/-- Remove the popped entry from the frontier, identified by its (unique)
insertion counter. -/
def eraseCounter (l : List (Entry C)) (c : Nat) : List (Entry C) :=
  l.eraseP fun e => e.2.1 == c

/-- The child-generation `for` loop of `graph_search`: fold over
`operators(state)`, and for each child state not in `explored` push
`(child.f, counter, child)` and bump the counter.  A `none` from `result`
cannot occur here (every operator produced by `operators` is in bounds);
it is mapped to skipping, which is dead code for valid states. -/
def expand [LinearOrder C] [Add C] [NatCast C] (heuristic_func : State → C)
    (node : Node C) (explored : List State) (frontier : List (Entry C)) (counter : Nat) :
    List (Entry C) × Nat :=
  (operators node.state).foldl
    (fun acc op =>
      match result node.state op with
      | none => acc
      | some child_state =>
        if child_state ∈ explored then acc
        else
          let h_cost := heuristic_func child_state
          let child : Node C :=
            .mk child_state (some node) (some op) (node.depth + 1) (node.path_cost + 1) h_cost
          (acc.1 ++ [(child.f, acc.2, child)], acc.2 + 1))
    (frontier, counter)

/-- The `while frontier:` loop of `graph_search`, with explicit fuel.
`none` means the fuel ran out before the loop returned; `some r` is the
Python return value `(goal_node_or_None, nodes_expanded, max_queue_size)`. -/
def searchLoop [LinearOrder C] [Add C] [NatCast C] (heuristic_func : State → C) :
    Nat → List (Entry C) → List State → Nat → Nat → Nat →
    Option (Option (Node C) × Nat × Nat)
  | 0, _, _, _, _, _ => none
  | _ + 1, [], _, _, nodes_expanded, max_queue_size =>
    some (none, nodes_expanded, max_queue_size)
  | fuel + 1, x :: xs, explored, counter, nodes_expanded, max_queue_size =>
    let m := pickMin x xs
    let rest := eraseCounter (x :: xs) m.2.1
    if goal_test m.2.2.state then some (some m.2.2, nodes_expanded, max_queue_size)
    else if m.2.2.state ∈ explored then
      searchLoop heuristic_func fuel rest explored counter nodes_expanded max_queue_size
    else
      let explored' := m.2.2.state :: explored
      let fc := expand heuristic_func m.2.2 explored' rest counter
      searchLoop heuristic_func fuel fc.1 explored' fc.2 (nodes_expanded + 1)
        (max max_queue_size fc.1.length)

/-- `graph_search(problem, heuristic_func)`: initialise the root node and
run the loop.  The explored set starts empty, the counter at 1, the
expansion count at 0 and the max queue size at 1. -/
def graph_search [LinearOrder C] [Add C] [NatCast C]
    (initial_state : State) (heuristic_func : State → C) (fuel : Nat) :
    Option (Option (Node C) × Nat × Nat) :=
  let h_initial := heuristic_func initial_state
  let initial_node : Node C := .mk initial_state none none 0 0 h_initial
  searchLoop heuristic_func fuel [(initial_node.f, 0, initial_node)] [] 1 0 1

/-! ## Observables of a search result -/

/-- The depth of the returned goal node, when the run finished. -/
def resDepth (r : Option (Option (Node C) × Nat × Nat)) : Option (Option Nat) :=
  r.map fun x => x.1.map Node.depth

/-- The state of the returned goal node, when the run finished. -/
def resGoalState (r : Option (Option (Node C) × Nat × Nat)) : Option (Option State) :=
  r.map fun x => x.1.map Node.state

/-- The returned `nodes_expanded`, when the run finished. -/
def resExpanded (r : Option (Option (Node C) × Nat × Nat)) : Option Nat :=
  r.map fun x => x.2.1

/-- The returned `max_queue_size`, when the run finished. -/
def resMaxQueue (r : Option (Option (Node C) × Nat × Nat)) : Option Nat :=
  r.map fun x => x.2.2

/-- The reconstructed solution path of the returned goal node. -/
def resPath (r : Option (Option (Node C) × Nat × Nat)) : Option (Option (List String)) :=
  r.map fun x => x.1.map solution_path

/-! ## Ground truth: valid states and the legal-move relation -/

/-- A valid `PuzzleState`: three rows of three tiles holding each value
`0..8` exactly once. -/
def Valid (s : State) : Prop :=
  s.map List.length = [3, 3, 3] ∧ s.flatten.Perm [0, 1, 2, 3, 4, 5, 6, 7, 8]

instance : DecidablePred Valid := fun s => by unfold Valid; infer_instance

/-- The states one legal move away: apply each operator from
`operators`.  (`result` never fails on them.) -/
def succs (s : State) : List State :=
  (operators s).filterMap (result s)

/-- `reachableIn n s t`: some sequence of `n` legal moves leads from `s`
to `t`.  The minimum such `n` is the breadth-first-search distance. -/
def reachableIn : Nat → State → State → Bool
  | 0, s, t => s == t
  | n + 1, s, t => (succs s).any fun u => reachableIn n u t

/-- The set of states reachable from `s` by legal moves. -/
def ReachSet (s : State) : Set State := {t | ∃ n, reachableIn n s t = true}

/-- The "easy" fixed test input `[[1,2,3],[4,5,6],[7,0,8]]`. -/
def easy_state : State := [[1, 2, 3], [4, 5, 6], [7, 0, 8]]

/-- The "harder" fixed test input `[[1,2,0],[4,5,3],[7,8,6]]`. -/
def harder_state : State := [[1, 2, 0], [4, 5, 3], [7, 8, 6]]

/-- Non-strict version of the `(f, counter)` key order. -/
def keyLe {C : Type} [LinearOrder C] (a b : C × Nat) : Prop :=
  a.1 < b.1 ∨ (a.1 = b.1 ∧ a.2 ≤ b.2)

/-- The inverse of a move, as the specification describes it:
up ↔ down and left ↔ right. -/
def inverse_op (op : String) : String :=
  if op = "up" then "down" else if op = "down" then "up"
  else if op = "left" then "right" else if op = "right" then "left" else op

/-- The flat (row-major) index of the blank in a grid. -/
def stateBlankIdx (s : State) : Nat := s.flatten.findIdx fun t => t == 0

/-- The 8 non-blank tiles of a grid in row-major order. -/
def stateTiles (s : State) : List Nat := s.flatten.filter fun t => t ≠ 0

/-- Rebuild a 3×3 grid from a blank flat index and a blank-free tile
sequence (counting device for the size of a solvability class). -/
def decodeState (p : Nat × List Nat) : State :=
  let l := p.2.insertIdx p.1 0
  [l.take 3, (l.drop 3).take 3, (l.drop 3).drop 3]

/-- All permutations of the 8 tiles whose inversion parity matches `b`
(`b = true` for even, i.e. solvable with the blank anywhere). -/
def parityPerms (b : Bool) : List (List Nat) :=
  ([1, 2, 3, 4, 5, 6, 7, 8] : List Nat).permutations.filter
    fun l => (inversions l % 2 == 0) == b

/-- The (overcounting) list of all states in one solvability class:
each blank position paired with each parity-`b` tile permutation. -/
def parityStates (b : Bool) : List State :=
  ((List.range 9) ×ˢ parityPerms b).map decodeState

/-- Base-9 encoding of a grid's flattened digits; injective on valid
states (all digits are below 9), used to bound the explored set. -/
def stateCode (s : State) : Nat :=
  s.flatten.foldr (fun d acc => d + 9 * acc) 0

/-! ## The two formulations of the inversion count agree -/

lemma filter_range_getD_length (xs : List Nat) (x : Nat) :
    ((List.range xs.length).filter fun j => xs.getD j 0 < x).length =
      xs.countP fun y => y < x := by
  induction xs with
  | nil => rfl
  | cons y ys ih =>
    simp only [List.length_cons, List.range_succ_eq_map, List.filter_cons,
      List.getD_cons_zero, List.getD_cons_succ, List.filter_map, Function.comp_def,
      List.length_map, List.countP_cons, decide_eq_true_eq, ih]
    by_cases h : y < x
    · rw [if_pos h, if_pos h, List.length_cons, List.length_map, ih]
    · rw [if_neg h, if_neg h, List.length_map, ih, Nat.add_zero]

lemma inversionPairs_cons (x : Nat) (xs : List Nat) :
    inversionPairs (x :: xs) = (xs.countP fun y => y < x) + inversionPairs xs := by
  unfold inversionPairs
  rw [List.length_cons, List.range_succ_eq_map, List.map_cons, List.sum_cons, List.map_map]
  have h0 : ((0 :: List.map Nat.succ (List.range xs.length)).filter
      fun j => 0 < j ∧ (x :: xs).getD j 0 < (x :: xs).getD 0 0).length
      = xs.countP fun y => y < x := by
    rw [List.filter_cons, if_neg (by simp), List.filter_map, List.length_map,
      ← filter_range_getD_length xs x]
    apply congrArg
    apply List.filter_congr
    intro j _
    simp [Function.comp_def, Nat.succ_pos]
  have h1 : ∀ i ∈ List.range xs.length,
      (((fun i => ((0 :: List.map Nat.succ (List.range xs.length)).filter
          fun j => i < j ∧ (x :: xs).getD j 0 < (x :: xs).getD i 0).length) ∘ Nat.succ) i)
      = ((List.range xs.length).filter fun j => i < j ∧ xs.getD j 0 < xs.getD i 0).length := by
    intro i _
    simp only [Function.comp_def, List.filter_cons, Nat.not_lt_zero, false_and,
      decide_False, Bool.false_eq_true, if_false, List.getD_cons_succ,
      List.filter_map, List.length_map]
    apply congrArg
    apply List.filter_congr
    intro j _
    simp [Nat.succ_lt_succ_iff]
  rw [h0, List.map_congr_left h1]

lemma inversions_eq_inversionPairs (l : List Nat) : inversions l = inversionPairs l := by
  induction l with
  | nil => rfl
  | cons x xs ih => rw [inversions, inversionPairs_cons, ih]

/-- C4: `is_solvable` returns true exactly when the number of inversions —
pairs `i < j` with `value[i] > value[j]` over the non-blank values in
row-major order — is even; in particular it accepts
`[[1,2,3],[4,5,6],[7,8,0]]` and rejects `[[1,2,3],[4,5,6],[8,7,0]]`. -/
theorem C4_solvability_parity :
    (∀ s : State, Valid s →
      (is_solvable s = true ↔ inversionPairs (s.flatten.filter fun t => t ≠ 0) % 2 = 0)) ∧
    is_solvable [[1, 2, 3], [4, 5, 6], [7, 8, 0]] = true ∧
    is_solvable [[1, 2, 3], [4, 5, 6], [8, 7, 0]] = false := by
  refine ⟨fun s _ => ?_, by decide, by decide⟩
  rw [is_solvable, inversions_eq_inversionPairs]
  simp

/-- C4 witness: the equivalence evaluated on the goal grid. -/
theorem C4_solvability_parity_witness :
    is_solvable goal_state = true ↔
      inversionPairs (goal_state.flatten.filter fun t => t ≠ 0) % 2 = 0 :=
  C4_solvability_parity.1 goal_state (by decide)

/-- C10: when the initial state is already the goal grid, every heuristic's
search pops the root immediately and returns it — depth 0, no parent — with
`nodes_expanded = 0` and `max_frontier_size = 1`. -/
theorem C10_goal_initial_returns_root {C : Type} [LinearOrder C] [Add C] [NatCast C]
    (heuristic_func : State → C) (fuel : Nat) :
    graph_search goal_state heuristic_func (fuel + 1) =
      some (some (Node.mk goal_state none none 0 0 (heuristic_func goal_state)), 0, 1) ∧
    (Node.mk goal_state none none 0 0 (heuristic_func goal_state)).depth = 0 ∧
    (Node.mk goal_state none none 0 0 (heuristic_func goal_state)).parent = none :=
  ⟨rfl, rfl, rfl⟩

/-- C2: on `[[1,2,0],[4,5,3],[7,8,6]]` the Manhattan search returns a goal
node at depth 2, which is the optimal solution length (the least number of
legal moves reaching the goal), and uniform-cost search returns a goal node
at the same depth 2. -/
theorem C2_harder_input_optimal_depth :
    resDepth (graph_search harder_state manhattan_distance 20) = some (some 2) ∧
    resGoalState (graph_search harder_state manhattan_distance 20) = some (some goal_state) ∧
    IsLeast {n | reachableIn n harder_state goal_state = true} 2 ∧
    resDepth (graph_search harder_state uniform_cost 20) = some (some 2) ∧
    resGoalState (graph_search harder_state uniform_cost 20) = some (some goal_state) := by
  refine ⟨by decide, by decide, ⟨by decide, ?_⟩, by decide, by decide⟩
  intro n hn
  match n with
  | 0 => exact absurd hn (by decide)
  | 1 => exact absurd hn (by decide)
  | n + 2 => omega

/-- C2 witness: the optimality lower bound applied at the concrete
solution length 2. -/
theorem C2_harder_input_optimal_depth_witness : 2 ≤ (2 : ℕ) :=
  C2_harder_input_optimal_depth.2.2.1.2 (by decide)

/-! ## Heuristic values at the goal, and non-negativity -/

lemma euclidean_goal_zero : euclidean_distance goal_state = 0 := by
  unfold euclidean_distance goal_state
  norm_num [List.range_succ, Real.sqrt_zero]

lemma euclidean_nonneg (s : State) : 0 ≤ euclidean_distance s := by
  unfold euclidean_distance
  apply List.sum_nonneg
  intro x hx
  simp only [List.mem_map] at hx
  obtain ⟨i, _, rfl⟩ := hx
  apply List.sum_nonneg
  intro y hy
  simp only [List.mem_map] at hy
  obtain ⟨j, _, rfl⟩ := hy
  split
  · exact Real.sqrt_nonneg _
  · exact le_refl 0

/-- C7: each of the four heuristics is exactly 0 on the goal grid and
non-negative on every valid state. -/
theorem C7_heuristics_zero_at_goal_and_nonneg :
    (uniform_cost goal_state = 0 ∧ misplaced_tile goal_state = 0 ∧
     manhattan_distance goal_state = 0 ∧ euclidean_distance goal_state = 0) ∧
    ∀ s : State, Valid s →
      0 ≤ uniform_cost s ∧ 0 ≤ misplaced_tile s ∧ 0 ≤ manhattan_distance s ∧
      0 ≤ euclidean_distance s :=
  ⟨⟨rfl, by decide, by decide, euclidean_goal_zero⟩,
   fun s _ => ⟨Nat.zero_le _, Nat.zero_le _, Nat.zero_le _, euclidean_nonneg s⟩⟩

/-- C7 witness: non-negativity evaluated at the easy fixed input. -/
theorem C7_heuristics_zero_at_goal_and_nonneg_witness :
    0 ≤ uniform_cost easy_state ∧ 0 ≤ misplaced_tile easy_state ∧
    0 ≤ manhattan_distance easy_state ∧ 0 ≤ euclidean_distance easy_state :=
  C7_heuristics_zero_at_goal_and_nonneg.2 easy_state (by decide)

/-! ## Single-step unfolding lemmas for the search loop -/

section StepLemmas
variable {C : Type} [LinearOrder C] [Add C] [NatCast C]

lemma searchLoop_goal_step (h : State → C) (fuel : Nat) (x : Entry C) (xs : List (Entry C))
    (expl : List State) (c ne mq : Nat) (m : Entry C)
    (hm : pickMin x xs = m) (hg : goal_test m.2.2.state = true) :
    searchLoop h (fuel + 1) (x :: xs) expl c ne mq = some (some m.2.2, ne, mq) := by
  rw [searchLoop]
  simp only [hm, hg, if_true]

lemma searchLoop_skip_step (h : State → C) (fuel : Nat) (x : Entry C) (xs : List (Entry C))
    (expl : List State) (c ne mq : Nat) (m : Entry C)
    (hm : pickMin x xs = m) (hg : goal_test m.2.2.state = false) (hmem : m.2.2.state ∈ expl) :
    searchLoop h (fuel + 1) (x :: xs) expl c ne mq =
      searchLoop h fuel (eraseCounter (x :: xs) m.2.1) expl c ne mq := by
  rw [searchLoop]
  simp only [hm, hg, Bool.false_eq_true, if_false, hmem, if_true]

lemma searchLoop_expand_step (h : State → C) (fuel : Nat) (x : Entry C) (xs : List (Entry C))
    (expl : List State) (c ne mq : Nat) (m : Entry C)
    (hm : pickMin x xs = m) (hg : goal_test m.2.2.state = false) (hmem : m.2.2.state ∉ expl) :
    searchLoop h (fuel + 1) (x :: xs) expl c ne mq =
      searchLoop h fuel
        (expand h m.2.2 (m.2.2.state :: expl) (eraseCounter (x :: xs) m.2.1) c).1
        (m.2.2.state :: expl)
        (expand h m.2.2 (m.2.2.state :: expl) (eraseCounter (x :: xs) m.2.1) c).2
        (ne + 1)
        (max mq (expand h m.2.2 (m.2.2.state :: expl) (eraseCounter (x :: xs) m.2.1) c).1.length) := by
  rw [searchLoop]
  simp only [hm, hg, Bool.false_eq_true, if_false, hmem, if_true]

end StepLemmas

/-! ## The Euclidean heuristic on the states of the easy run -/

lemma eucl_easy : euclidean_distance easy_state = 1 := by
  unfold euclidean_distance easy_state
  norm_num [List.range_succ, Real.sqrt_zero, Real.sqrt_one]

lemma eucl_up : euclidean_distance ([[1,2,3],[4,0,6],[7,5,8]] : State) = 2 := by
  unfold euclidean_distance
  norm_num [List.range_succ, Real.sqrt_zero, Real.sqrt_one]

lemma eucl_left : euclidean_distance ([[1,2,3],[4,5,6],[0,7,8]] : State) = 2 := by
  unfold euclidean_distance
  norm_num [List.range_succ, Real.sqrt_zero, Real.sqrt_one]

/-- The complete Euclidean-heuristic run on the easy input: the root is
expanded, its three children are pushed with f-values 3, 3 and 1, and the
goal child (pushed third, least f) is popped next and returned. -/
lemma euclidean_easy_run :
    resDepth (graph_search easy_state euclidean_distance 20) = some (some 1) ∧
    resGoalState (graph_search easy_state euclidean_distance 20) = some (some goal_state) ∧
    resExpanded (graph_search easy_state euclidean_distance 20) = some 1 ∧
    resMaxQueue (graph_search easy_state euclidean_distance 20) = some 3 := by
  have hpick : pickMin
      ((((1:Nat):ℝ) + euclidean_distance [[1,2,3],[4,0,6],[7,5,8]], 1,
        Node.mk [[1,2,3],[4,0,6],[7,5,8]]
          (some (Node.mk easy_state none none 0 0 (euclidean_distance easy_state)))
          (some "up") 1 1 (euclidean_distance [[1,2,3],[4,0,6],[7,5,8]])) : Entry ℝ)
      [(((1:Nat):ℝ) + euclidean_distance [[1,2,3],[4,5,6],[0,7,8]], 2,
        Node.mk [[1,2,3],[4,5,6],[0,7,8]]
          (some (Node.mk easy_state none none 0 0 (euclidean_distance easy_state)))
          (some "left") 1 1 (euclidean_distance [[1,2,3],[4,5,6],[0,7,8]])),
       (((1:Nat):ℝ) + euclidean_distance goal_state, 3,
        Node.mk goal_state
          (some (Node.mk easy_state none none 0 0 (euclidean_distance easy_state)))
          (some "right") 1 1 (euclidean_distance goal_state))] =
      (((1:Nat):ℝ) + euclidean_distance goal_state, 3,
        Node.mk goal_state
          (some (Node.mk easy_state none none 0 0 (euclidean_distance easy_state)))
          (some "right") 1 1 (euclidean_distance goal_state)) := by
    norm_num [pickMin, keyLt, eucl_up, eucl_left, euclidean_goal_zero]
  have step1 : graph_search easy_state euclidean_distance 20 =
      searchLoop euclidean_distance 19
        [(((1:Nat):ℝ) + euclidean_distance [[1,2,3],[4,0,6],[7,5,8]], 1,
          Node.mk [[1,2,3],[4,0,6],[7,5,8]]
            (some (Node.mk easy_state none none 0 0 (euclidean_distance easy_state)))
            (some "up") 1 1 (euclidean_distance [[1,2,3],[4,0,6],[7,5,8]])),
         (((1:Nat):ℝ) + euclidean_distance [[1,2,3],[4,5,6],[0,7,8]], 2,
          Node.mk [[1,2,3],[4,5,6],[0,7,8]]
            (some (Node.mk easy_state none none 0 0 (euclidean_distance easy_state)))
            (some "left") 1 1 (euclidean_distance [[1,2,3],[4,5,6],[0,7,8]])),
         (((1:Nat):ℝ) + euclidean_distance goal_state, 3,
          Node.mk goal_state
            (some (Node.mk easy_state none none 0 0 (euclidean_distance easy_state)))
            (some "right") 1 1 (euclidean_distance goal_state))]
        [easy_state] 4 1 3 := rfl
  have hrun : graph_search easy_state euclidean_distance 20 =
      some (some (Node.mk goal_state
        (some (Node.mk easy_state none none 0 0 (euclidean_distance easy_state)))
        (some "right") 1 1 (euclidean_distance goal_state)), 1, 3) := by
    rw [step1, show (19:Nat) = 18 + 1 from rfl,
      searchLoop_goal_step _ 18 _ _ _ _ _ _ _ hpick rfl]
  rw [hrun]
  exact ⟨rfl, rfl, rfl, rfl⟩

/-! ## The popped entry is the lexicographic `(f, counter)` minimum -/

section PickMinSpec
variable {C : Type} [LinearOrder C]

lemma keyLe_refl (a : C × Nat) : keyLe a a := Or.inr ⟨rfl, le_refl _⟩

lemma keyLe_of_not_keyLt {a b : C × Nat} (h : ¬ keyLt a b) : keyLe b a := by
  unfold keyLt at h
  push_neg at h
  rcases lt_trichotomy b.1 a.1 with h1 | h1 | h1
  · exact Or.inl h1
  · exact Or.inr ⟨h1, h.2 h1.symm⟩
  · exact absurd h1 (not_lt_of_le h.1)

lemma keyLe_of_keyLt {a b : C × Nat} (h : keyLt a b) : keyLe a b := by
  rcases h with h | ⟨h1, h2⟩
  · exact Or.inl h
  · exact Or.inr ⟨h1, le_of_lt h2⟩

lemma keyLe_trans {a b c : C × Nat} (h1 : keyLe a b) (h2 : keyLe b c) : keyLe a c := by
  rcases h1 with h1 | ⟨h1, h1'⟩ <;> rcases h2 with h2 | ⟨h2, h2'⟩
  · exact Or.inl (lt_trans h1 h2)
  · exact Or.inl (h2 ▸ h1)
  · exact Or.inl (h1 ▸ h2)
  · exact Or.inr ⟨h1.trans h2, le_trans h1' h2'⟩

lemma pickMin_mem (x : Entry C) (xs : List (Entry C)) : pickMin x xs ∈ x :: xs := by
  induction xs generalizing x with
  | nil => simp [pickMin]
  | cons e rest ih =>
    rw [pickMin]
    split
    · rcases List.mem_cons.mp (ih e) with h | h
      · rw [h]; exact List.mem_cons_of_mem _ (List.mem_cons_self _ _)
      · exact List.mem_cons_of_mem _ (List.mem_cons_of_mem _ h)
    · rcases List.mem_cons.mp (ih x) with h | h
      · rw [h]; exact List.mem_cons_self _ _
      · exact List.mem_cons_of_mem _ (List.mem_cons_of_mem _ h)

lemma pickMin_le (x : Entry C) (xs : List (Entry C)) :
    ∀ e ∈ x :: xs, keyLe ((pickMin x xs).1, (pickMin x xs).2.1) (e.1, e.2.1) := by
  induction xs generalizing x with
  | nil =>
    intro e he
    rcases List.mem_singleton.mp he with rfl
    simp only [pickMin]
    exact keyLe_refl _
  | cons y rest ih =>
    intro e he
    rw [pickMin]
    split
    · rename_i hlt
      rcases List.mem_cons.mp he with h1 | he2
      · rw [h1]
        exact keyLe_trans (ih y _ (List.mem_cons_self _ _)) (keyLe_of_keyLt hlt)
      · exact ih y _ he2
    · rename_i hnlt
      rcases List.mem_cons.mp he with h1 | he2
      · rw [h1]
        exact ih x _ (List.mem_cons_self _ _)
      · rcases List.mem_cons.mp he2 with h3 | he3
        · rw [h3]
          exact keyLe_trans (ih x _ (List.mem_cons_self _ _)) (keyLe_of_not_keyLt hnlt)
        · exact ih x _ (List.mem_cons_of_mem _ he3)

end PickMinSpec

/-- C5: `graph_search` is deterministic — two invocations on the same
(state, heuristic) pair return identical `nodes_expanded`,
`max_frontier_size` and solution path — and every pop takes a frontier
entry of minimal f, ties on equal f going to the smaller (earlier)
insertion counter. -/
theorem C5_search_deterministic {C : Type} [LinearOrder C] [Add C] [NatCast C] :
    (∀ (s : State) (h : State → C) (fuel : Nat),
      resExpanded (graph_search s h fuel) = resExpanded (graph_search s h fuel) ∧
      resMaxQueue (graph_search s h fuel) = resMaxQueue (graph_search s h fuel) ∧
      resPath (graph_search s h fuel) = resPath (graph_search s h fuel)) ∧
    (∀ (x : Entry C) (xs : List (Entry C)),
      pickMin x xs ∈ x :: xs ∧
      ∀ e ∈ x :: xs, (pickMin x xs).1 < e.1 ∨
        ((pickMin x xs).1 = e.1 ∧ (pickMin x xs).2.1 ≤ e.2.1)) :=
  ⟨fun _ _ _ => ⟨rfl, rfl, rfl⟩,
   fun x xs => ⟨pickMin_mem x xs, fun e he => pickMin_le x xs e he⟩⟩

/-- C5 witness: the tie-break property applied to a concrete singleton
frontier. -/
theorem C5_search_deterministic_witness :
    (pickMin ((0:Nat), 0, Node.mk goal_state none none 0 0 (0:Nat)) []).1 <
      ((0:Nat), 0, Node.mk goal_state none none 0 0 (0:Nat)).1 ∨
    ((pickMin ((0:Nat), 0, Node.mk goal_state none none 0 0 (0:Nat)) []).1 =
      ((0:Nat), 0, Node.mk goal_state none none 0 0 (0:Nat)).1 ∧
     (pickMin ((0:Nat), 0, Node.mk goal_state none none 0 0 (0:Nat)) []).2.1 ≤
      ((0:Nat), 0, Node.mk goal_state none none 0 0 (0:Nat)).2.1) :=
  (C5_search_deterministic.2 _ []).2 _ (List.mem_cons_self _ _)

/-- C1 fails as stated: with the zero (uniform-cost) heuristic — an
admissible heuristic explicitly listed by the claim — the run on
`[[1,2,3],[4,5,6],[7,0,8]]` expands 3 nodes, not at most 2 (the two
non-goal depth-1 children tie with the goal child at f = 1 and are popped
first by the insertion-order tie-break). -/
theorem C1_counterexample :
    ¬ (∀ ne, resExpanded (graph_search easy_state uniform_cost 20) = some ne → ne ≤ 2) := by
  intro H
  have h3 := H 3 (by decide)
  omega

/-- C1 (amended): on `[[1,2,3],[4,5,6],[7,0,8]]` every one of the four
heuristics returns a goal node at depth 1; the misplaced-tile, Manhattan
and Euclidean searches expand 1 node (≤ 2), while the zero-heuristic
(uniform-cost) search expands 3 nodes. -/
theorem C1_easy_input_depth_and_expansions :
    (resDepth (graph_search easy_state uniform_cost 20) = some (some 1) ∧
     resGoalState (graph_search easy_state uniform_cost 20) = some (some goal_state) ∧
     resExpanded (graph_search easy_state uniform_cost 20) = some 3) ∧
    (resDepth (graph_search easy_state misplaced_tile 20) = some (some 1) ∧
     resGoalState (graph_search easy_state misplaced_tile 20) = some (some goal_state) ∧
     resExpanded (graph_search easy_state misplaced_tile 20) = some 1) ∧
    (resDepth (graph_search easy_state manhattan_distance 20) = some (some 1) ∧
     resGoalState (graph_search easy_state manhattan_distance 20) = some (some goal_state) ∧
     resExpanded (graph_search easy_state manhattan_distance 20) = some 1) ∧
    (resDepth (graph_search easy_state euclidean_distance 20) = some (some 1) ∧
     resGoalState (graph_search easy_state euclidean_distance 20) = some (some goal_state) ∧
     resExpanded (graph_search easy_state euclidean_distance 20) = some 1) :=
  ⟨⟨by decide, by decide, by decide⟩,
   ⟨by decide, by decide, by decide⟩,
   ⟨by decide, by decide, by decide⟩,
   ⟨euclidean_easy_run.1, euclidean_easy_run.2.1, euclidean_easy_run.2.2.1⟩⟩

/-! ## Destructuring a valid state into its nine entries -/

lemma count_one_split {l : List Nat} (hc : l.count 0 = 1) :
    ∃ A B, l = A ++ 0 :: B ∧ 0 ∉ A ∧ 0 ∉ B := by
  induction l with
  | nil => simp at hc
  | cons x xs ih =>
    by_cases hx : x = 0
    · subst hx
      rw [List.count_cons_self] at hc
      have h0 : xs.count 0 = 0 := by omega
      exact ⟨[], xs, rfl, by simp, List.count_eq_zero.mp h0⟩
    · rw [List.count_cons_of_ne (fun h0 => hx h0.symm)] at hc
      obtain ⟨A, B, rfl, hA, hB⟩ := ih hc
      refine ⟨x :: A, B, rfl, ?_, hB⟩
      simp only [List.mem_cons, not_or]
      exact ⟨fun h0 => hx h0.symm, hA⟩

lemma notMem_to_ne {l : List Nat} (h : (0:Nat) ∉ l) : ∀ x ∈ l, x ≠ 0 :=
  fun x hx h0 => h (h0 ▸ hx)

lemma len3_destruct {l : List Nat} (h : l.length = 3) : ∃ a b c, l = [a, b, c] := by
  rcases l with _ | ⟨a, _ | ⟨b, _ | ⟨c, _ | ⟨d, t⟩⟩⟩⟩ <;> simp at h
  exact ⟨a, b, c, rfl⟩

lemma valid_destruct {s : State} (hv : Valid s) :
    ∃ a b c d e f g h i : Nat, s = [[a,b,c],[d,e,f],[g,h,i]] ∧
      ((a = 0 ∧ b ≠ 0 ∧ c ≠ 0 ∧ d ≠ 0 ∧ e ≠ 0 ∧ f ≠ 0 ∧ g ≠ 0 ∧ h ≠ 0 ∧ i ≠ 0) ∨
       (b = 0 ∧ a ≠ 0 ∧ c ≠ 0 ∧ d ≠ 0 ∧ e ≠ 0 ∧ f ≠ 0 ∧ g ≠ 0 ∧ h ≠ 0 ∧ i ≠ 0) ∨
       (c = 0 ∧ a ≠ 0 ∧ b ≠ 0 ∧ d ≠ 0 ∧ e ≠ 0 ∧ f ≠ 0 ∧ g ≠ 0 ∧ h ≠ 0 ∧ i ≠ 0) ∨
       (d = 0 ∧ a ≠ 0 ∧ b ≠ 0 ∧ c ≠ 0 ∧ e ≠ 0 ∧ f ≠ 0 ∧ g ≠ 0 ∧ h ≠ 0 ∧ i ≠ 0) ∨
       (e = 0 ∧ a ≠ 0 ∧ b ≠ 0 ∧ c ≠ 0 ∧ d ≠ 0 ∧ f ≠ 0 ∧ g ≠ 0 ∧ h ≠ 0 ∧ i ≠ 0) ∨
       (f = 0 ∧ a ≠ 0 ∧ b ≠ 0 ∧ c ≠ 0 ∧ d ≠ 0 ∧ e ≠ 0 ∧ g ≠ 0 ∧ h ≠ 0 ∧ i ≠ 0) ∨
       (g = 0 ∧ a ≠ 0 ∧ b ≠ 0 ∧ c ≠ 0 ∧ d ≠ 0 ∧ e ≠ 0 ∧ f ≠ 0 ∧ h ≠ 0 ∧ i ≠ 0) ∨
       (h = 0 ∧ a ≠ 0 ∧ b ≠ 0 ∧ c ≠ 0 ∧ d ≠ 0 ∧ e ≠ 0 ∧ f ≠ 0 ∧ g ≠ 0 ∧ i ≠ 0) ∨
       (i = 0 ∧ a ≠ 0 ∧ b ≠ 0 ∧ c ≠ 0 ∧ d ≠ 0 ∧ e ≠ 0 ∧ f ≠ 0 ∧ g ≠ 0 ∧ h ≠ 0)) := by
  obtain ⟨hshape, hperm⟩ := hv
  rcases s with _ | ⟨r0, _ | ⟨r1, _ | ⟨r2, _ | ⟨r3, t⟩⟩⟩⟩ <;> simp at hshape
  obtain ⟨h0, h1, h2⟩ := hshape
  obtain ⟨a, b, c, rfl⟩ := len3_destruct h0
  obtain ⟨d, e, f, rfl⟩ := len3_destruct h1
  obtain ⟨g, h, i, rfl⟩ := len3_destruct h2
  refine ⟨a, b, c, d, e, f, g, h, i, rfl, ?_⟩
  have hc : List.count 0 [a,b,c,d,e,f,g,h,i] = 1 := by
    have := hperm.count_eq 0
    simpa using this
  obtain ⟨A, B, heq, hA, hB⟩ := count_one_split hc
  rcases A with _ | ⟨x1, A⟩
  · simp only [List.nil_append, List.cons.injEq] at heq
    obtain ⟨h0, rfl⟩ := heq
    simp only [List.mem_cons, not_or] at hB
    exact Or.inl ⟨h0, fun h' => hB.1 h'.symm, fun h' => hB.2.1 h'.symm,
      fun h' => hB.2.2.1 h'.symm, fun h' => hB.2.2.2.1 h'.symm,
      fun h' => hB.2.2.2.2.1 h'.symm, fun h' => hB.2.2.2.2.2.1 h'.symm,
      fun h' => hB.2.2.2.2.2.2.1 h'.symm, fun h' => hB.2.2.2.2.2.2.2.1 h'.symm⟩
  rcases A with _ | ⟨x2, A⟩
  · simp only [List.cons_append, List.nil_append, List.cons.injEq] at heq
    obtain ⟨rfl, h0, rfl⟩ := heq
    simp only [List.mem_cons, not_or, List.not_mem_nil] at hA hB
    exact Or.inr (Or.inl ⟨h0, fun h' => hA.1 h'.symm, fun h' => hB.1 h'.symm,
      fun h' => hB.2.1 h'.symm, fun h' => hB.2.2.1 h'.symm,
      fun h' => hB.2.2.2.1 h'.symm, fun h' => hB.2.2.2.2.1 h'.symm,
      fun h' => hB.2.2.2.2.2.1 h'.symm, fun h' => hB.2.2.2.2.2.2.1 h'.symm⟩)
  rcases A with _ | ⟨x3, A⟩
  · simp only [List.cons_append, List.nil_append, List.cons.injEq] at heq
    obtain ⟨rfl, rfl, h0, rfl⟩ := heq
    simp only [List.mem_cons, not_or, List.not_mem_nil] at hA hB
    exact Or.inr (Or.inr (Or.inl ⟨h0, fun h' => hA.1 h'.symm, fun h' => hA.2.1 h'.symm,
      fun h' => hB.1 h'.symm, fun h' => hB.2.1 h'.symm,
      fun h' => hB.2.2.1 h'.symm, fun h' => hB.2.2.2.1 h'.symm,
      fun h' => hB.2.2.2.2.1 h'.symm, fun h' => hB.2.2.2.2.2.1 h'.symm⟩))
  rcases A with _ | ⟨x4, A⟩
  · simp only [List.cons_append, List.nil_append, List.cons.injEq] at heq
    obtain ⟨rfl, rfl, rfl, h0, rfl⟩ := heq
    simp only [List.mem_cons, not_or, List.not_mem_nil] at hA hB
    exact Or.inr (Or.inr (Or.inr (Or.inl ⟨h0,
      fun h' => hA.1 h'.symm, fun h' => hA.2.1 h'.symm, fun h' => hA.2.2.1 h'.symm,
      fun h' => hB.1 h'.symm, fun h' => hB.2.1 h'.symm,
      fun h' => hB.2.2.1 h'.symm, fun h' => hB.2.2.2.1 h'.symm,
      fun h' => hB.2.2.2.2.1 h'.symm⟩)))
  rcases A with _ | ⟨x5, A⟩
  · simp only [List.cons_append, List.nil_append, List.cons.injEq] at heq
    obtain ⟨rfl, rfl, rfl, rfl, h0, rfl⟩ := heq
    simp only [List.mem_cons, not_or, List.not_mem_nil] at hA hB
    exact Or.inr (Or.inr (Or.inr (Or.inr (Or.inl ⟨h0,
      fun h' => hA.1 h'.symm, fun h' => hA.2.1 h'.symm, fun h' => hA.2.2.1 h'.symm,
      fun h' => hA.2.2.2.1 h'.symm, fun h' => hB.1 h'.symm,
      fun h' => hB.2.1 h'.symm, fun h' => hB.2.2.1 h'.symm,
      fun h' => hB.2.2.2.1 h'.symm⟩))))
  rcases A with _ | ⟨x6, A⟩
  · simp only [List.cons_append, List.nil_append, List.cons.injEq] at heq
    obtain ⟨rfl, rfl, rfl, rfl, rfl, h0, rfl⟩ := heq
    simp only [List.mem_cons, not_or, List.not_mem_nil] at hA hB
    exact Or.inr (Or.inr (Or.inr (Or.inr (Or.inr (Or.inl ⟨h0,
      fun h' => hA.1 h'.symm, fun h' => hA.2.1 h'.symm, fun h' => hA.2.2.1 h'.symm,
      fun h' => hA.2.2.2.1 h'.symm, fun h' => hA.2.2.2.2.1 h'.symm,
      fun h' => hB.1 h'.symm, fun h' => hB.2.1 h'.symm,
      fun h' => hB.2.2.1 h'.symm⟩)))))
  rcases A with _ | ⟨x7, A⟩
  · simp only [List.cons_append, List.nil_append, List.cons.injEq] at heq
    obtain ⟨rfl, rfl, rfl, rfl, rfl, rfl, h0, rfl⟩ := heq
    simp only [List.mem_cons, not_or, List.not_mem_nil] at hA hB
    exact Or.inr (Or.inr (Or.inr (Or.inr (Or.inr (Or.inr (Or.inl ⟨h0,
      fun h' => hA.1 h'.symm, fun h' => hA.2.1 h'.symm, fun h' => hA.2.2.1 h'.symm,
      fun h' => hA.2.2.2.1 h'.symm, fun h' => hA.2.2.2.2.1 h'.symm,
      fun h' => hA.2.2.2.2.2.1 h'.symm, fun h' => hB.1 h'.symm,
      fun h' => hB.2.1 h'.symm⟩))))))
  rcases A with _ | ⟨x8, A⟩
  · simp only [List.cons_append, List.nil_append, List.cons.injEq] at heq
    obtain ⟨rfl, rfl, rfl, rfl, rfl, rfl, rfl, h0, rfl⟩ := heq
    simp only [List.mem_cons, not_or, List.not_mem_nil] at hA hB
    exact Or.inr (Or.inr (Or.inr (Or.inr (Or.inr (Or.inr (Or.inr (Or.inl ⟨h0,
      fun h' => hA.1 h'.symm, fun h' => hA.2.1 h'.symm, fun h' => hA.2.2.1 h'.symm,
      fun h' => hA.2.2.2.1 h'.symm, fun h' => hA.2.2.2.2.1 h'.symm,
      fun h' => hA.2.2.2.2.2.1 h'.symm, fun h' => hA.2.2.2.2.2.2.1 h'.symm,
      fun h' => hB.1 h'.symm⟩)))))))
  rcases A with _ | ⟨x9, A⟩
  · simp only [List.cons_append, List.nil_append, List.cons.injEq] at heq
    obtain ⟨rfl, rfl, rfl, rfl, rfl, rfl, rfl, rfl, h0, rfl⟩ := heq
    simp only [List.mem_cons, not_or, List.not_mem_nil] at hA
    exact Or.inr (Or.inr (Or.inr (Or.inr (Or.inr (Or.inr (Or.inr (Or.inr ⟨h0,
      fun h' => hA.1 h'.symm, fun h' => hA.2.1 h'.symm, fun h' => hA.2.2.1 h'.symm,
      fun h' => hA.2.2.2.1 h'.symm, fun h' => hA.2.2.2.2.1 h'.symm,
      fun h' => hA.2.2.2.2.2.1 h'.symm, fun h' => hA.2.2.2.2.2.2.1 h'.symm,
      fun h' => hA.2.2.2.2.2.2.2.1 h'.symm⟩)))))))
  · simp only [List.cons_append, List.cons.injEq] at heq
    obtain ⟨-, -, -, -, -, -, -, -, -, habs⟩ := heq
    exact absurd habs (by simp)

/-! ## Inversion parity under a middle swap -/

lemma indicator_of_pos {p : Prop} [Decidable p] (h : p) :
    (if decide p = true then 1 else 0) = 1 := by simp [h]

lemma indicator_of_neg {p : Prop} [Decidable p] (h : ¬p) :
    (if decide p = true then 1 else 0) = 0 := by simp [h]

lemma perm_swap_middle (A B C : List Nat) (x y : Nat) :
    (A ++ x :: (B ++ y :: C)).Perm (A ++ y :: (B ++ x :: C)) :=
  List.Perm.append_left A
    ((List.Perm.cons x List.perm_middle).trans
      ((List.Perm.swap y x (B ++ C)).trans (List.Perm.cons y List.perm_middle.symm)))

lemma inversions_append (P Q : List Nat) :
    inversions (P ++ Q) =
      inversions P + inversions Q + (P.map fun x => Q.countP fun y => y < x).sum := by
  induction P with
  | nil => simp [inversions]
  | cons x xs ih =>
    simp only [List.cons_append, inversions, List.countP_append, ih, List.map_cons,
      List.sum_cons, List.append_eq]
    omega

lemma countP_lt_split {B : List Nat} {v : Nat} (hv : ∀ x ∈ B, x ≠ v) :
    (B.countP fun y => y < v) + (B.countP fun y => v < y) = B.length := by
  induction B with
  | nil => rfl
  | cons x xs ih =>
    have hx : x ≠ v := hv x (List.mem_cons_self _ _)
    have ihx := ih fun y hy => hv y (List.mem_cons_of_mem _ hy)
    simp only [List.countP_cons, List.length_cons]
    rcases lt_trichotomy x v with h | h | h
    · rw [indicator_of_pos h, indicator_of_neg (not_lt_of_lt h)]
      omega
    · exact absurd h hx
    · rw [indicator_of_neg (not_lt_of_lt h), indicator_of_pos h]
      omega

lemma sum_countP_cons_head (B Y : List Nat) (v : Nat) :
    (B.map fun x => (v :: Y).countP fun y => y < x).sum =
      (B.map fun x => Y.countP fun y => y < x).sum + (B.countP fun y => v < y) := by
  induction B with
  | nil => rfl
  | cons x xs ih =>
    rw [List.map_cons, List.sum_cons, List.map_cons, List.sum_cons, ih,
      List.countP_cons, List.countP_cons]
    by_cases hvx : v < x
    · rw [indicator_of_pos hvx]
      omega
    · rw [indicator_of_neg hvx]
      omega

lemma inversions_swap_parity (X B Y : List Nat) (v : Nat) (hB : B.length % 2 = 0)
    (hv : ∀ x ∈ B, x ≠ v) :
    inversions (X ++ v :: (B ++ Y)) % 2 = inversions (X ++ (B ++ v :: Y)) % 2 := by
  induction X with
  | cons x xs ih =>
    simp only [List.cons_append, inversions, List.countP_append, List.countP_cons,
      List.append_eq]
    by_cases hvx : v < x
    · rw [indicator_of_pos hvx]
      omega
    · rw [indicator_of_neg hvx]
      omega
  | nil =>
    simp only [List.nil_append]
    rw [inversions, inversions_append B (v :: Y), inversions, inversions_append B Y,
      List.countP_append, sum_countP_cons_head]
    have hsplit := countP_lt_split hv
    omega

set_option maxHeartbeats 1000000

/-! ## Concrete move computations on a destructured grid

For each blank position `k` (row-major) these lemmas compute
`operators` and `result` on a grid whose eight other entries are
arbitrary non-blank tiles.  The hypotheses are exactly the
non-zero facts that the row-major blank scan needs. -/

lemma operators_blank_0 (x1 x2 x3 x4 x5 x6 x7 x8 : Nat) :
    operators [[0,x1,x2],[x3,x4,x5],[x6,x7,x8]] = ["down", "right"] := by
  simp [operators, find_blank, List.find?]

lemma result_swap_0_up (x1 x2 x3 x4 x5 x6 x7 x8 : Nat) :
    result [[0,x1,x2],[x3,x4,x5],[x6,x7,x8]] "up" = some [[x6,x1,x2],[x3,x4,x5],[0,x7,x8]] := by
  simp [result, find_blank, List.find?, pyGet2, pySet2, pyGetRow, pyGetRowEntry, pyIdx]

lemma result_swap_0_down (x1 x2 x3 x4 x5 x6 x7 x8 : Nat) :
    result [[0,x1,x2],[x3,x4,x5],[x6,x7,x8]] "down" = some [[x3,x1,x2],[0,x4,x5],[x6,x7,x8]] := by
  simp [result, find_blank, List.find?, pyGet2, pySet2, pyGetRow, pyGetRowEntry, pyIdx]

lemma result_swap_0_left (x1 x2 x3 x4 x5 x6 x7 x8 : Nat) :
    result [[0,x1,x2],[x3,x4,x5],[x6,x7,x8]] "left" = some [[x2,x1,0],[x3,x4,x5],[x6,x7,x8]] := by
  simp [result, find_blank, List.find?, pyGet2, pySet2, pyGetRow, pyGetRowEntry, pyIdx]

lemma result_swap_0_right (x1 x2 x3 x4 x5 x6 x7 x8 : Nat) :
    result [[0,x1,x2],[x3,x4,x5],[x6,x7,x8]] "right" = some [[x1,0,x2],[x3,x4,x5],[x6,x7,x8]] := by
  simp [result, find_blank, List.find?, pyGet2, pySet2, pyGetRow, pyGetRowEntry, pyIdx]

lemma operators_blank_1 (x0 x2 x3 x4 x5 x6 x7 x8 : Nat) (hS0 : x0 ≠ 0) :
    operators [[x0,0,x2],[x3,x4,x5],[x6,x7,x8]] = ["down", "left", "right"] := by
  simp [operators, find_blank, List.find?, hS0]

lemma result_swap_1_up (x0 x2 x3 x4 x5 x6 x7 x8 : Nat) (hS0 : x0 ≠ 0) :
    result [[x0,0,x2],[x3,x4,x5],[x6,x7,x8]] "up" = some [[x0,x7,x2],[x3,x4,x5],[x6,0,x8]] := by
  simp [result, find_blank, List.find?, pyGet2, pySet2, pyGetRow, pyGetRowEntry, pyIdx, hS0]

lemma result_swap_1_down (x0 x2 x3 x4 x5 x6 x7 x8 : Nat) (hS0 : x0 ≠ 0) :
    result [[x0,0,x2],[x3,x4,x5],[x6,x7,x8]] "down" = some [[x0,x4,x2],[x3,0,x5],[x6,x7,x8]] := by
  simp [result, find_blank, List.find?, pyGet2, pySet2, pyGetRow, pyGetRowEntry, pyIdx, hS0]

lemma result_swap_1_left (x0 x2 x3 x4 x5 x6 x7 x8 : Nat) (hS0 : x0 ≠ 0) :
    result [[x0,0,x2],[x3,x4,x5],[x6,x7,x8]] "left" = some [[0,x0,x2],[x3,x4,x5],[x6,x7,x8]] := by
  simp [result, find_blank, List.find?, pyGet2, pySet2, pyGetRow, pyGetRowEntry, pyIdx, hS0]

lemma result_swap_1_right (x0 x2 x3 x4 x5 x6 x7 x8 : Nat) (hS0 : x0 ≠ 0) :
    result [[x0,0,x2],[x3,x4,x5],[x6,x7,x8]] "right" = some [[x0,x2,0],[x3,x4,x5],[x6,x7,x8]] := by
  simp [result, find_blank, List.find?, pyGet2, pySet2, pyGetRow, pyGetRowEntry, pyIdx, hS0]

lemma operators_blank_2 (x0 x1 x3 x4 x5 x6 x7 x8 : Nat) (hS0 : x0 ≠ 0) (hS1 : x1 ≠ 0) :
    operators [[x0,x1,0],[x3,x4,x5],[x6,x7,x8]] = ["down", "left"] := by
  simp [operators, find_blank, List.find?, hS0, hS1]

lemma result_swap_2_up (x0 x1 x3 x4 x5 x6 x7 x8 : Nat) (hS0 : x0 ≠ 0) (hS1 : x1 ≠ 0) :
    result [[x0,x1,0],[x3,x4,x5],[x6,x7,x8]] "up" = some [[x0,x1,x8],[x3,x4,x5],[x6,x7,0]] := by
  simp [result, find_blank, List.find?, pyGet2, pySet2, pyGetRow, pyGetRowEntry, pyIdx, hS0, hS1]

lemma result_swap_2_down (x0 x1 x3 x4 x5 x6 x7 x8 : Nat) (hS0 : x0 ≠ 0) (hS1 : x1 ≠ 0) :
    result [[x0,x1,0],[x3,x4,x5],[x6,x7,x8]] "down" = some [[x0,x1,x5],[x3,x4,0],[x6,x7,x8]] := by
  simp [result, find_blank, List.find?, pyGet2, pySet2, pyGetRow, pyGetRowEntry, pyIdx, hS0, hS1]

lemma result_swap_2_left (x0 x1 x3 x4 x5 x6 x7 x8 : Nat) (hS0 : x0 ≠ 0) (hS1 : x1 ≠ 0) :
    result [[x0,x1,0],[x3,x4,x5],[x6,x7,x8]] "left" = some [[x0,0,x1],[x3,x4,x5],[x6,x7,x8]] := by
  simp [result, find_blank, List.find?, pyGet2, pySet2, pyGetRow, pyGetRowEntry, pyIdx, hS0, hS1]

lemma result_err_2_right (x0 x1 x3 x4 x5 x6 x7 x8 : Nat) (hS0 : x0 ≠ 0) (hS1 : x1 ≠ 0) :
    result [[x0,x1,0],[x3,x4,x5],[x6,x7,x8]] "right" = none := by
  simp [result, find_blank, List.find?, pyGet2, pySet2, pyGetRow, pyGetRowEntry, pyIdx, hS0, hS1]

lemma operators_blank_3 (x0 x1 x2 x4 x5 x6 x7 x8 : Nat) (hS0 : x0 ≠ 0) (hS1 : x1 ≠ 0) (hS2 : x2 ≠ 0) :
    operators [[x0,x1,x2],[0,x4,x5],[x6,x7,x8]] = ["up", "down", "right"] := by
  simp [operators, find_blank, List.find?, hS0, hS1, hS2]

lemma result_swap_3_up (x0 x1 x2 x4 x5 x6 x7 x8 : Nat) (hS0 : x0 ≠ 0) (hS1 : x1 ≠ 0) (hS2 : x2 ≠ 0) :
    result [[x0,x1,x2],[0,x4,x5],[x6,x7,x8]] "up" = some [[0,x1,x2],[x0,x4,x5],[x6,x7,x8]] := by
  simp [result, find_blank, List.find?, pyGet2, pySet2, pyGetRow, pyGetRowEntry, pyIdx, hS0, hS1, hS2]

lemma result_swap_3_down (x0 x1 x2 x4 x5 x6 x7 x8 : Nat) (hS0 : x0 ≠ 0) (hS1 : x1 ≠ 0) (hS2 : x2 ≠ 0) :
    result [[x0,x1,x2],[0,x4,x5],[x6,x7,x8]] "down" = some [[x0,x1,x2],[x6,x4,x5],[0,x7,x8]] := by
  simp [result, find_blank, List.find?, pyGet2, pySet2, pyGetRow, pyGetRowEntry, pyIdx, hS0, hS1, hS2]

lemma result_swap_3_left (x0 x1 x2 x4 x5 x6 x7 x8 : Nat) (hS0 : x0 ≠ 0) (hS1 : x1 ≠ 0) (hS2 : x2 ≠ 0) :
    result [[x0,x1,x2],[0,x4,x5],[x6,x7,x8]] "left" = some [[x0,x1,x2],[x5,x4,0],[x6,x7,x8]] := by
  simp [result, find_blank, List.find?, pyGet2, pySet2, pyGetRow, pyGetRowEntry, pyIdx, hS0, hS1, hS2]

lemma result_swap_3_right (x0 x1 x2 x4 x5 x6 x7 x8 : Nat) (hS0 : x0 ≠ 0) (hS1 : x1 ≠ 0) (hS2 : x2 ≠ 0) :
    result [[x0,x1,x2],[0,x4,x5],[x6,x7,x8]] "right" = some [[x0,x1,x2],[x4,0,x5],[x6,x7,x8]] := by
  simp [result, find_blank, List.find?, pyGet2, pySet2, pyGetRow, pyGetRowEntry, pyIdx, hS0, hS1, hS2]

lemma operators_blank_4 (x0 x1 x2 x3 x5 x6 x7 x8 : Nat) (hS0 : x0 ≠ 0) (hS1 : x1 ≠ 0) (hS2 : x2 ≠ 0) (hS3 : x3 ≠ 0) :
    operators [[x0,x1,x2],[x3,0,x5],[x6,x7,x8]] = ["up", "down", "left", "right"] := by
  simp [operators, find_blank, List.find?, hS0, hS1, hS2, hS3]

lemma result_swap_4_up (x0 x1 x2 x3 x5 x6 x7 x8 : Nat) (hS0 : x0 ≠ 0) (hS1 : x1 ≠ 0) (hS2 : x2 ≠ 0) (hS3 : x3 ≠ 0) :
    result [[x0,x1,x2],[x3,0,x5],[x6,x7,x8]] "up" = some [[x0,0,x2],[x3,x1,x5],[x6,x7,x8]] := by
  simp [result, find_blank, List.find?, pyGet2, pySet2, pyGetRow, pyGetRowEntry, pyIdx, hS0, hS1, hS2, hS3]

lemma result_swap_4_down (x0 x1 x2 x3 x5 x6 x7 x8 : Nat) (hS0 : x0 ≠ 0) (hS1 : x1 ≠ 0) (hS2 : x2 ≠ 0) (hS3 : x3 ≠ 0) :
    result [[x0,x1,x2],[x3,0,x5],[x6,x7,x8]] "down" = some [[x0,x1,x2],[x3,x7,x5],[x6,0,x8]] := by
  simp [result, find_blank, List.find?, pyGet2, pySet2, pyGetRow, pyGetRowEntry, pyIdx, hS0, hS1, hS2, hS3]

lemma result_swap_4_left (x0 x1 x2 x3 x5 x6 x7 x8 : Nat) (hS0 : x0 ≠ 0) (hS1 : x1 ≠ 0) (hS2 : x2 ≠ 0) (hS3 : x3 ≠ 0) :
    result [[x0,x1,x2],[x3,0,x5],[x6,x7,x8]] "left" = some [[x0,x1,x2],[0,x3,x5],[x6,x7,x8]] := by
  simp [result, find_blank, List.find?, pyGet2, pySet2, pyGetRow, pyGetRowEntry, pyIdx, hS0, hS1, hS2, hS3]

lemma result_swap_4_right (x0 x1 x2 x3 x5 x6 x7 x8 : Nat) (hS0 : x0 ≠ 0) (hS1 : x1 ≠ 0) (hS2 : x2 ≠ 0) (hS3 : x3 ≠ 0) :
    result [[x0,x1,x2],[x3,0,x5],[x6,x7,x8]] "right" = some [[x0,x1,x2],[x3,x5,0],[x6,x7,x8]] := by
  simp [result, find_blank, List.find?, pyGet2, pySet2, pyGetRow, pyGetRowEntry, pyIdx, hS0, hS1, hS2, hS3]

lemma operators_blank_5 (x0 x1 x2 x3 x4 x6 x7 x8 : Nat) (hS0 : x0 ≠ 0) (hS1 : x1 ≠ 0) (hS2 : x2 ≠ 0) (hS3 : x3 ≠ 0) (hS4 : x4 ≠ 0) :
    operators [[x0,x1,x2],[x3,x4,0],[x6,x7,x8]] = ["up", "down", "left"] := by
  simp [operators, find_blank, List.find?, hS0, hS1, hS2, hS3, hS4]

lemma result_swap_5_up (x0 x1 x2 x3 x4 x6 x7 x8 : Nat) (hS0 : x0 ≠ 0) (hS1 : x1 ≠ 0) (hS2 : x2 ≠ 0) (hS3 : x3 ≠ 0) (hS4 : x4 ≠ 0) :
    result [[x0,x1,x2],[x3,x4,0],[x6,x7,x8]] "up" = some [[x0,x1,0],[x3,x4,x2],[x6,x7,x8]] := by
  simp [result, find_blank, List.find?, pyGet2, pySet2, pyGetRow, pyGetRowEntry, pyIdx, hS0, hS1, hS2, hS3, hS4]

lemma result_swap_5_down (x0 x1 x2 x3 x4 x6 x7 x8 : Nat) (hS0 : x0 ≠ 0) (hS1 : x1 ≠ 0) (hS2 : x2 ≠ 0) (hS3 : x3 ≠ 0) (hS4 : x4 ≠ 0) :
    result [[x0,x1,x2],[x3,x4,0],[x6,x7,x8]] "down" = some [[x0,x1,x2],[x3,x4,x8],[x6,x7,0]] := by
  simp [result, find_blank, List.find?, pyGet2, pySet2, pyGetRow, pyGetRowEntry, pyIdx, hS0, hS1, hS2, hS3, hS4]

lemma result_swap_5_left (x0 x1 x2 x3 x4 x6 x7 x8 : Nat) (hS0 : x0 ≠ 0) (hS1 : x1 ≠ 0) (hS2 : x2 ≠ 0) (hS3 : x3 ≠ 0) (hS4 : x4 ≠ 0) :
    result [[x0,x1,x2],[x3,x4,0],[x6,x7,x8]] "left" = some [[x0,x1,x2],[x3,0,x4],[x6,x7,x8]] := by
  simp [result, find_blank, List.find?, pyGet2, pySet2, pyGetRow, pyGetRowEntry, pyIdx, hS0, hS1, hS2, hS3, hS4]

lemma result_err_5_right (x0 x1 x2 x3 x4 x6 x7 x8 : Nat) (hS0 : x0 ≠ 0) (hS1 : x1 ≠ 0) (hS2 : x2 ≠ 0) (hS3 : x3 ≠ 0) (hS4 : x4 ≠ 0) :
    result [[x0,x1,x2],[x3,x4,0],[x6,x7,x8]] "right" = none := by
  simp [result, find_blank, List.find?, pyGet2, pySet2, pyGetRow, pyGetRowEntry, pyIdx, hS0, hS1, hS2, hS3, hS4]

lemma operators_blank_6 (x0 x1 x2 x3 x4 x5 x7 x8 : Nat) (hS0 : x0 ≠ 0) (hS1 : x1 ≠ 0) (hS2 : x2 ≠ 0) (hS3 : x3 ≠ 0) (hS4 : x4 ≠ 0) (hS5 : x5 ≠ 0) :
    operators [[x0,x1,x2],[x3,x4,x5],[0,x7,x8]] = ["up", "right"] := by
  simp [operators, find_blank, List.find?, hS0, hS1, hS2, hS3, hS4, hS5]

lemma result_swap_6_up (x0 x1 x2 x3 x4 x5 x7 x8 : Nat) (hS0 : x0 ≠ 0) (hS1 : x1 ≠ 0) (hS2 : x2 ≠ 0) (hS3 : x3 ≠ 0) (hS4 : x4 ≠ 0) (hS5 : x5 ≠ 0) :
    result [[x0,x1,x2],[x3,x4,x5],[0,x7,x8]] "up" = some [[x0,x1,x2],[0,x4,x5],[x3,x7,x8]] := by
  simp [result, find_blank, List.find?, pyGet2, pySet2, pyGetRow, pyGetRowEntry, pyIdx, hS0, hS1, hS2, hS3, hS4, hS5]

lemma result_err_6_down (x0 x1 x2 x3 x4 x5 x7 x8 : Nat) (hS0 : x0 ≠ 0) (hS1 : x1 ≠ 0) (hS2 : x2 ≠ 0) (hS3 : x3 ≠ 0) (hS4 : x4 ≠ 0) (hS5 : x5 ≠ 0) :
    result [[x0,x1,x2],[x3,x4,x5],[0,x7,x8]] "down" = none := by
  simp [result, find_blank, List.find?, pyGet2, pySet2, pyGetRow, pyGetRowEntry, pyIdx, hS0, hS1, hS2, hS3, hS4, hS5]

lemma result_swap_6_left (x0 x1 x2 x3 x4 x5 x7 x8 : Nat) (hS0 : x0 ≠ 0) (hS1 : x1 ≠ 0) (hS2 : x2 ≠ 0) (hS3 : x3 ≠ 0) (hS4 : x4 ≠ 0) (hS5 : x5 ≠ 0) :
    result [[x0,x1,x2],[x3,x4,x5],[0,x7,x8]] "left" = some [[x0,x1,x2],[x3,x4,x5],[x8,x7,0]] := by
  simp [result, find_blank, List.find?, pyGet2, pySet2, pyGetRow, pyGetRowEntry, pyIdx, hS0, hS1, hS2, hS3, hS4, hS5]

lemma result_swap_6_right (x0 x1 x2 x3 x4 x5 x7 x8 : Nat) (hS0 : x0 ≠ 0) (hS1 : x1 ≠ 0) (hS2 : x2 ≠ 0) (hS3 : x3 ≠ 0) (hS4 : x4 ≠ 0) (hS5 : x5 ≠ 0) :
    result [[x0,x1,x2],[x3,x4,x5],[0,x7,x8]] "right" = some [[x0,x1,x2],[x3,x4,x5],[x7,0,x8]] := by
  simp [result, find_blank, List.find?, pyGet2, pySet2, pyGetRow, pyGetRowEntry, pyIdx, hS0, hS1, hS2, hS3, hS4, hS5]

lemma operators_blank_7 (x0 x1 x2 x3 x4 x5 x6 x8 : Nat) (hS0 : x0 ≠ 0) (hS1 : x1 ≠ 0) (hS2 : x2 ≠ 0) (hS3 : x3 ≠ 0) (hS4 : x4 ≠ 0) (hS5 : x5 ≠ 0) (hS6 : x6 ≠ 0) :
    operators [[x0,x1,x2],[x3,x4,x5],[x6,0,x8]] = ["up", "left", "right"] := by
  simp [operators, find_blank, List.find?, hS0, hS1, hS2, hS3, hS4, hS5, hS6]

lemma result_swap_7_up (x0 x1 x2 x3 x4 x5 x6 x8 : Nat) (hS0 : x0 ≠ 0) (hS1 : x1 ≠ 0) (hS2 : x2 ≠ 0) (hS3 : x3 ≠ 0) (hS4 : x4 ≠ 0) (hS5 : x5 ≠ 0) (hS6 : x6 ≠ 0) :
    result [[x0,x1,x2],[x3,x4,x5],[x6,0,x8]] "up" = some [[x0,x1,x2],[x3,0,x5],[x6,x4,x8]] := by
  simp [result, find_blank, List.find?, pyGet2, pySet2, pyGetRow, pyGetRowEntry, pyIdx, hS0, hS1, hS2, hS3, hS4, hS5, hS6]

lemma result_err_7_down (x0 x1 x2 x3 x4 x5 x6 x8 : Nat) (hS0 : x0 ≠ 0) (hS1 : x1 ≠ 0) (hS2 : x2 ≠ 0) (hS3 : x3 ≠ 0) (hS4 : x4 ≠ 0) (hS5 : x5 ≠ 0) (hS6 : x6 ≠ 0) :
    result [[x0,x1,x2],[x3,x4,x5],[x6,0,x8]] "down" = none := by
  simp [result, find_blank, List.find?, pyGet2, pySet2, pyGetRow, pyGetRowEntry, pyIdx, hS0, hS1, hS2, hS3, hS4, hS5, hS6]

lemma result_swap_7_left (x0 x1 x2 x3 x4 x5 x6 x8 : Nat) (hS0 : x0 ≠ 0) (hS1 : x1 ≠ 0) (hS2 : x2 ≠ 0) (hS3 : x3 ≠ 0) (hS4 : x4 ≠ 0) (hS5 : x5 ≠ 0) (hS6 : x6 ≠ 0) :
    result [[x0,x1,x2],[x3,x4,x5],[x6,0,x8]] "left" = some [[x0,x1,x2],[x3,x4,x5],[0,x6,x8]] := by
  simp [result, find_blank, List.find?, pyGet2, pySet2, pyGetRow, pyGetRowEntry, pyIdx, hS0, hS1, hS2, hS3, hS4, hS5, hS6]

lemma result_swap_7_right (x0 x1 x2 x3 x4 x5 x6 x8 : Nat) (hS0 : x0 ≠ 0) (hS1 : x1 ≠ 0) (hS2 : x2 ≠ 0) (hS3 : x3 ≠ 0) (hS4 : x4 ≠ 0) (hS5 : x5 ≠ 0) (hS6 : x6 ≠ 0) :
    result [[x0,x1,x2],[x3,x4,x5],[x6,0,x8]] "right" = some [[x0,x1,x2],[x3,x4,x5],[x6,x8,0]] := by
  simp [result, find_blank, List.find?, pyGet2, pySet2, pyGetRow, pyGetRowEntry, pyIdx, hS0, hS1, hS2, hS3, hS4, hS5, hS6]

lemma operators_blank_8 (x0 x1 x2 x3 x4 x5 x6 x7 : Nat) (hS0 : x0 ≠ 0) (hS1 : x1 ≠ 0) (hS2 : x2 ≠ 0) (hS3 : x3 ≠ 0) (hS4 : x4 ≠ 0) (hS5 : x5 ≠ 0) (hS6 : x6 ≠ 0) (hS7 : x7 ≠ 0) :
    operators [[x0,x1,x2],[x3,x4,x5],[x6,x7,0]] = ["up", "left"] := by
  simp [operators, find_blank, List.find?, hS0, hS1, hS2, hS3, hS4, hS5, hS6, hS7]

lemma result_swap_8_up (x0 x1 x2 x3 x4 x5 x6 x7 : Nat) (hS0 : x0 ≠ 0) (hS1 : x1 ≠ 0) (hS2 : x2 ≠ 0) (hS3 : x3 ≠ 0) (hS4 : x4 ≠ 0) (hS5 : x5 ≠ 0) (hS6 : x6 ≠ 0) (hS7 : x7 ≠ 0) :
    result [[x0,x1,x2],[x3,x4,x5],[x6,x7,0]] "up" = some [[x0,x1,x2],[x3,x4,0],[x6,x7,x5]] := by
  simp [result, find_blank, List.find?, pyGet2, pySet2, pyGetRow, pyGetRowEntry, pyIdx, hS0, hS1, hS2, hS3, hS4, hS5, hS6, hS7]

lemma result_err_8_down (x0 x1 x2 x3 x4 x5 x6 x7 : Nat) (hS0 : x0 ≠ 0) (hS1 : x1 ≠ 0) (hS2 : x2 ≠ 0) (hS3 : x3 ≠ 0) (hS4 : x4 ≠ 0) (hS5 : x5 ≠ 0) (hS6 : x6 ≠ 0) (hS7 : x7 ≠ 0) :
    result [[x0,x1,x2],[x3,x4,x5],[x6,x7,0]] "down" = none := by
  simp [result, find_blank, List.find?, pyGet2, pySet2, pyGetRow, pyGetRowEntry, pyIdx, hS0, hS1, hS2, hS3, hS4, hS5, hS6, hS7]

lemma result_swap_8_left (x0 x1 x2 x3 x4 x5 x6 x7 : Nat) (hS0 : x0 ≠ 0) (hS1 : x1 ≠ 0) (hS2 : x2 ≠ 0) (hS3 : x3 ≠ 0) (hS4 : x4 ≠ 0) (hS5 : x5 ≠ 0) (hS6 : x6 ≠ 0) (hS7 : x7 ≠ 0) :
    result [[x0,x1,x2],[x3,x4,x5],[x6,x7,0]] "left" = some [[x0,x1,x2],[x3,x4,x5],[x6,0,x7]] := by
  simp [result, find_blank, List.find?, pyGet2, pySet2, pyGetRow, pyGetRowEntry, pyIdx, hS0, hS1, hS2, hS3, hS4, hS5, hS6, hS7]

lemma result_err_8_right (x0 x1 x2 x3 x4 x5 x6 x7 : Nat) (hS0 : x0 ≠ 0) (hS1 : x1 ≠ 0) (hS2 : x2 ≠ 0) (hS3 : x3 ≠ 0) (hS4 : x4 ≠ 0) (hS5 : x5 ≠ 0) (hS6 : x6 ≠ 0) (hS7 : x7 ≠ 0) :
    result [[x0,x1,x2],[x3,x4,x5],[x6,x7,0]] "right" = none := by
  simp [result, find_blank, List.find?, pyGet2, pySet2, pyGetRow, pyGetRowEntry, pyIdx, hS0, hS1, hS2, hS3, hS4, hS5, hS6, hS7]

/-! ## The successor lists of a destructured grid -/

lemma succs_blank_0 (x1 x2 x3 x4 x5 x6 x7 x8 : Nat) :
    succs [[0,x1,x2],[x3,x4,x5],[x6,x7,x8]] = [[[x3,x1,x2],[0,x4,x5],[x6,x7,x8]], [[x1,0,x2],[x3,x4,x5],[x6,x7,x8]]] := by
  rw [succs, operators_blank_0 x1 x2 x3 x4 x5 x6 x7 x8 ]
  simp [List.filterMap_cons, result_swap_0_down x1 x2 x3 x4 x5 x6 x7 x8 , result_swap_0_right x1 x2 x3 x4 x5 x6 x7 x8 ]

lemma succs_blank_1 (x0 x2 x3 x4 x5 x6 x7 x8 : Nat) (hS0 : x0 ≠ 0) :
    succs [[x0,0,x2],[x3,x4,x5],[x6,x7,x8]] = [[[x0,x4,x2],[x3,0,x5],[x6,x7,x8]], [[0,x0,x2],[x3,x4,x5],[x6,x7,x8]], [[x0,x2,0],[x3,x4,x5],[x6,x7,x8]]] := by
  rw [succs, operators_blank_1 x0 x2 x3 x4 x5 x6 x7 x8 hS0]
  simp [List.filterMap_cons, result_swap_1_down x0 x2 x3 x4 x5 x6 x7 x8 hS0, result_swap_1_left x0 x2 x3 x4 x5 x6 x7 x8 hS0, result_swap_1_right x0 x2 x3 x4 x5 x6 x7 x8 hS0]

lemma succs_blank_2 (x0 x1 x3 x4 x5 x6 x7 x8 : Nat) (hS0 : x0 ≠ 0) (hS1 : x1 ≠ 0) :
    succs [[x0,x1,0],[x3,x4,x5],[x6,x7,x8]] = [[[x0,x1,x5],[x3,x4,0],[x6,x7,x8]], [[x0,0,x1],[x3,x4,x5],[x6,x7,x8]]] := by
  rw [succs, operators_blank_2 x0 x1 x3 x4 x5 x6 x7 x8 hS0 hS1]
  simp [List.filterMap_cons, result_swap_2_down x0 x1 x3 x4 x5 x6 x7 x8 hS0 hS1, result_swap_2_left x0 x1 x3 x4 x5 x6 x7 x8 hS0 hS1]

lemma succs_blank_3 (x0 x1 x2 x4 x5 x6 x7 x8 : Nat) (hS0 : x0 ≠ 0) (hS1 : x1 ≠ 0) (hS2 : x2 ≠ 0) :
    succs [[x0,x1,x2],[0,x4,x5],[x6,x7,x8]] = [[[0,x1,x2],[x0,x4,x5],[x6,x7,x8]], [[x0,x1,x2],[x6,x4,x5],[0,x7,x8]], [[x0,x1,x2],[x4,0,x5],[x6,x7,x8]]] := by
  rw [succs, operators_blank_3 x0 x1 x2 x4 x5 x6 x7 x8 hS0 hS1 hS2]
  simp [List.filterMap_cons, result_swap_3_up x0 x1 x2 x4 x5 x6 x7 x8 hS0 hS1 hS2, result_swap_3_down x0 x1 x2 x4 x5 x6 x7 x8 hS0 hS1 hS2, result_swap_3_right x0 x1 x2 x4 x5 x6 x7 x8 hS0 hS1 hS2]

lemma succs_blank_4 (x0 x1 x2 x3 x5 x6 x7 x8 : Nat) (hS0 : x0 ≠ 0) (hS1 : x1 ≠ 0) (hS2 : x2 ≠ 0) (hS3 : x3 ≠ 0) :
    succs [[x0,x1,x2],[x3,0,x5],[x6,x7,x8]] = [[[x0,0,x2],[x3,x1,x5],[x6,x7,x8]], [[x0,x1,x2],[x3,x7,x5],[x6,0,x8]], [[x0,x1,x2],[0,x3,x5],[x6,x7,x8]], [[x0,x1,x2],[x3,x5,0],[x6,x7,x8]]] := by
  rw [succs, operators_blank_4 x0 x1 x2 x3 x5 x6 x7 x8 hS0 hS1 hS2 hS3]
  simp [List.filterMap_cons, result_swap_4_up x0 x1 x2 x3 x5 x6 x7 x8 hS0 hS1 hS2 hS3, result_swap_4_down x0 x1 x2 x3 x5 x6 x7 x8 hS0 hS1 hS2 hS3, result_swap_4_left x0 x1 x2 x3 x5 x6 x7 x8 hS0 hS1 hS2 hS3, result_swap_4_right x0 x1 x2 x3 x5 x6 x7 x8 hS0 hS1 hS2 hS3]

lemma succs_blank_5 (x0 x1 x2 x3 x4 x6 x7 x8 : Nat) (hS0 : x0 ≠ 0) (hS1 : x1 ≠ 0) (hS2 : x2 ≠ 0) (hS3 : x3 ≠ 0) (hS4 : x4 ≠ 0) :
    succs [[x0,x1,x2],[x3,x4,0],[x6,x7,x8]] = [[[x0,x1,0],[x3,x4,x2],[x6,x7,x8]], [[x0,x1,x2],[x3,x4,x8],[x6,x7,0]], [[x0,x1,x2],[x3,0,x4],[x6,x7,x8]]] := by
  rw [succs, operators_blank_5 x0 x1 x2 x3 x4 x6 x7 x8 hS0 hS1 hS2 hS3 hS4]
  simp [List.filterMap_cons, result_swap_5_up x0 x1 x2 x3 x4 x6 x7 x8 hS0 hS1 hS2 hS3 hS4, result_swap_5_down x0 x1 x2 x3 x4 x6 x7 x8 hS0 hS1 hS2 hS3 hS4, result_swap_5_left x0 x1 x2 x3 x4 x6 x7 x8 hS0 hS1 hS2 hS3 hS4]

lemma succs_blank_6 (x0 x1 x2 x3 x4 x5 x7 x8 : Nat) (hS0 : x0 ≠ 0) (hS1 : x1 ≠ 0) (hS2 : x2 ≠ 0) (hS3 : x3 ≠ 0) (hS4 : x4 ≠ 0) (hS5 : x5 ≠ 0) :
    succs [[x0,x1,x2],[x3,x4,x5],[0,x7,x8]] = [[[x0,x1,x2],[0,x4,x5],[x3,x7,x8]], [[x0,x1,x2],[x3,x4,x5],[x7,0,x8]]] := by
  rw [succs, operators_blank_6 x0 x1 x2 x3 x4 x5 x7 x8 hS0 hS1 hS2 hS3 hS4 hS5]
  simp [List.filterMap_cons, result_swap_6_up x0 x1 x2 x3 x4 x5 x7 x8 hS0 hS1 hS2 hS3 hS4 hS5, result_swap_6_right x0 x1 x2 x3 x4 x5 x7 x8 hS0 hS1 hS2 hS3 hS4 hS5]

lemma succs_blank_7 (x0 x1 x2 x3 x4 x5 x6 x8 : Nat) (hS0 : x0 ≠ 0) (hS1 : x1 ≠ 0) (hS2 : x2 ≠ 0) (hS3 : x3 ≠ 0) (hS4 : x4 ≠ 0) (hS5 : x5 ≠ 0) (hS6 : x6 ≠ 0) :
    succs [[x0,x1,x2],[x3,x4,x5],[x6,0,x8]] = [[[x0,x1,x2],[x3,0,x5],[x6,x4,x8]], [[x0,x1,x2],[x3,x4,x5],[0,x6,x8]], [[x0,x1,x2],[x3,x4,x5],[x6,x8,0]]] := by
  rw [succs, operators_blank_7 x0 x1 x2 x3 x4 x5 x6 x8 hS0 hS1 hS2 hS3 hS4 hS5 hS6]
  simp [List.filterMap_cons, result_swap_7_up x0 x1 x2 x3 x4 x5 x6 x8 hS0 hS1 hS2 hS3 hS4 hS5 hS6, result_swap_7_left x0 x1 x2 x3 x4 x5 x6 x8 hS0 hS1 hS2 hS3 hS4 hS5 hS6, result_swap_7_right x0 x1 x2 x3 x4 x5 x6 x8 hS0 hS1 hS2 hS3 hS4 hS5 hS6]

lemma succs_blank_8 (x0 x1 x2 x3 x4 x5 x6 x7 : Nat) (hS0 : x0 ≠ 0) (hS1 : x1 ≠ 0) (hS2 : x2 ≠ 0) (hS3 : x3 ≠ 0) (hS4 : x4 ≠ 0) (hS5 : x5 ≠ 0) (hS6 : x6 ≠ 0) (hS7 : x7 ≠ 0) :
    succs [[x0,x1,x2],[x3,x4,x5],[x6,x7,0]] = [[[x0,x1,x2],[x3,x4,0],[x6,x7,x5]], [[x0,x1,x2],[x3,x4,x5],[x6,0,x7]]] := by
  rw [succs, operators_blank_8 x0 x1 x2 x3 x4 x5 x6 x7 hS0 hS1 hS2 hS3 hS4 hS5 hS6 hS7]
  simp [List.filterMap_cons, result_swap_8_up x0 x1 x2 x3 x4 x5 x6 x7 hS0 hS1 hS2 hS3 hS4 hS5 hS6 hS7, result_swap_8_left x0 x1 x2 x3 x4 x5 x6 x7 hS0 hS1 hS2 hS3 hS4 hS5 hS6 hS7]

/-! ## Whenever `result` returns a grid, it is a valid permutation -/

lemma result_some_valid :
    ∀ s op t, Valid s → result s op = some t → Valid t := by
  intro s op t hv hres
  obtain ⟨x0, x1, x2, x3, x4, x5, x6, x7, x8, rfl, hz⟩ := valid_destruct hv
  rcases hz with ⟨hz0, hn1, hn2, hn3, hn4, hn5, hn6, hn7, hn8⟩ | ⟨hz0, hn1, hn2, hn3, hn4, hn5, hn6, hn7, hn8⟩ | ⟨hz0, hn1, hn2, hn3, hn4, hn5, hn6, hn7, hn8⟩ | ⟨hz0, hn1, hn2, hn3, hn4, hn5, hn6, hn7, hn8⟩ | ⟨hz0, hn1, hn2, hn3, hn4, hn5, hn6, hn7, hn8⟩ | ⟨hz0, hn1, hn2, hn3, hn4, hn5, hn6, hn7, hn8⟩ | ⟨hz0, hn1, hn2, hn3, hn4, hn5, hn6, hn7, hn8⟩ | ⟨hz0, hn1, hn2, hn3, hn4, hn5, hn6, hn7, hn8⟩ | ⟨hz0, hn1, hn2, hn3, hn4, hn5, hn6, hn7, hn8⟩
  · subst hz0
    by_cases hop_up : op = "up"
    · subst hop_up
      rw [result_swap_0_up x1 x2 x3 x4 x5 x6 x7 x8] at hres
      injection hres with hres
      subst hres
      exact ⟨rfl, (perm_swap_middle [] [x1,x2,x3,x4,x5] [x7,x8] x6 0).trans (by simpa using hv.2)⟩
    by_cases hop_down : op = "down"
    · subst hop_down
      rw [result_swap_0_down x1 x2 x3 x4 x5 x6 x7 x8] at hres
      injection hres with hres
      subst hres
      exact ⟨rfl, (perm_swap_middle [] [x1,x2] [x4,x5,x6,x7,x8] x3 0).trans (by simpa using hv.2)⟩
    by_cases hop_left : op = "left"
    · subst hop_left
      rw [result_swap_0_left x1 x2 x3 x4 x5 x6 x7 x8] at hres
      injection hres with hres
      subst hres
      exact ⟨rfl, (perm_swap_middle [] [x1] [x3,x4,x5,x6,x7,x8] x2 0).trans (by simpa using hv.2)⟩
    by_cases hop_right : op = "right"
    · subst hop_right
      rw [result_swap_0_right x1 x2 x3 x4 x5 x6 x7 x8] at hres
      injection hres with hres
      subst hres
      exact ⟨rfl, (perm_swap_middle [] [] [x2,x3,x4,x5,x6,x7,x8] x1 0).trans (by simpa using hv.2)⟩
    · simp [result, find_blank, List.find?, hn1, hn2, hn3, hn4, hn5, hn6, hn7, hn8,
        hop_up, hop_down, hop_left, hop_right] at hres
      subst hres
      exact hv
  · subst hz0
    by_cases hop_up : op = "up"
    · subst hop_up
      rw [result_swap_1_up x0 x2 x3 x4 x5 x6 x7 x8 hn1] at hres
      injection hres with hres
      subst hres
      exact ⟨rfl, (perm_swap_middle [x0] [x2,x3,x4,x5,x6] [x8] x7 0).trans (by simpa using hv.2)⟩
    by_cases hop_down : op = "down"
    · subst hop_down
      rw [result_swap_1_down x0 x2 x3 x4 x5 x6 x7 x8 hn1] at hres
      injection hres with hres
      subst hres
      exact ⟨rfl, (perm_swap_middle [x0] [x2,x3] [x5,x6,x7,x8] x4 0).trans (by simpa using hv.2)⟩
    by_cases hop_left : op = "left"
    · subst hop_left
      rw [result_swap_1_left x0 x2 x3 x4 x5 x6 x7 x8 hn1] at hres
      injection hres with hres
      subst hres
      exact ⟨rfl, (perm_swap_middle [] [] [x2,x3,x4,x5,x6,x7,x8] 0 x0).trans (by simpa using hv.2)⟩
    by_cases hop_right : op = "right"
    · subst hop_right
      rw [result_swap_1_right x0 x2 x3 x4 x5 x6 x7 x8 hn1] at hres
      injection hres with hres
      subst hres
      exact ⟨rfl, (perm_swap_middle [x0] [] [x3,x4,x5,x6,x7,x8] x2 0).trans (by simpa using hv.2)⟩
    · simp [result, find_blank, List.find?, hn1, hn2, hn3, hn4, hn5, hn6, hn7, hn8,
        hop_up, hop_down, hop_left, hop_right] at hres
      subst hres
      exact hv
  · subst hz0
    by_cases hop_up : op = "up"
    · subst hop_up
      rw [result_swap_2_up x0 x1 x3 x4 x5 x6 x7 x8 hn1 hn2] at hres
      injection hres with hres
      subst hres
      exact ⟨rfl, (perm_swap_middle [x0,x1] [x3,x4,x5,x6,x7] [] x8 0).trans (by simpa using hv.2)⟩
    by_cases hop_down : op = "down"
    · subst hop_down
      rw [result_swap_2_down x0 x1 x3 x4 x5 x6 x7 x8 hn1 hn2] at hres
      injection hres with hres
      subst hres
      exact ⟨rfl, (perm_swap_middle [x0,x1] [x3,x4] [x6,x7,x8] x5 0).trans (by simpa using hv.2)⟩
    by_cases hop_left : op = "left"
    · subst hop_left
      rw [result_swap_2_left x0 x1 x3 x4 x5 x6 x7 x8 hn1 hn2] at hres
      injection hres with hres
      subst hres
      exact ⟨rfl, (perm_swap_middle [x0] [] [x3,x4,x5,x6,x7,x8] 0 x1).trans (by simpa using hv.2)⟩
    by_cases hop_right : op = "right"
    · subst hop_right
      rw [result_err_2_right x0 x1 x3 x4 x5 x6 x7 x8 hn1 hn2] at hres
      simp at hres
    · simp [result, find_blank, List.find?, hn1, hn2, hn3, hn4, hn5, hn6, hn7, hn8,
        hop_up, hop_down, hop_left, hop_right] at hres
      subst hres
      exact hv
  · subst hz0
    by_cases hop_up : op = "up"
    · subst hop_up
      rw [result_swap_3_up x0 x1 x2 x4 x5 x6 x7 x8 hn1 hn2 hn3] at hres
      injection hres with hres
      subst hres
      exact ⟨rfl, (perm_swap_middle [] [x1,x2] [x4,x5,x6,x7,x8] 0 x0).trans (by simpa using hv.2)⟩
    by_cases hop_down : op = "down"
    · subst hop_down
      rw [result_swap_3_down x0 x1 x2 x4 x5 x6 x7 x8 hn1 hn2 hn3] at hres
      injection hres with hres
      subst hres
      exact ⟨rfl, (perm_swap_middle [x0,x1,x2] [x4,x5] [x7,x8] x6 0).trans (by simpa using hv.2)⟩
    by_cases hop_left : op = "left"
    · subst hop_left
      rw [result_swap_3_left x0 x1 x2 x4 x5 x6 x7 x8 hn1 hn2 hn3] at hres
      injection hres with hres
      subst hres
      exact ⟨rfl, (perm_swap_middle [x0,x1,x2] [x4] [x6,x7,x8] x5 0).trans (by simpa using hv.2)⟩
    by_cases hop_right : op = "right"
    · subst hop_right
      rw [result_swap_3_right x0 x1 x2 x4 x5 x6 x7 x8 hn1 hn2 hn3] at hres
      injection hres with hres
      subst hres
      exact ⟨rfl, (perm_swap_middle [x0,x1,x2] [] [x5,x6,x7,x8] x4 0).trans (by simpa using hv.2)⟩
    · simp [result, find_blank, List.find?, hn1, hn2, hn3, hn4, hn5, hn6, hn7, hn8,
        hop_up, hop_down, hop_left, hop_right] at hres
      subst hres
      exact hv
  · subst hz0
    by_cases hop_up : op = "up"
    · subst hop_up
      rw [result_swap_4_up x0 x1 x2 x3 x5 x6 x7 x8 hn1 hn2 hn3 hn4] at hres
      injection hres with hres
      subst hres
      exact ⟨rfl, (perm_swap_middle [x0] [x2,x3] [x5,x6,x7,x8] 0 x1).trans (by simpa using hv.2)⟩
    by_cases hop_down : op = "down"
    · subst hop_down
      rw [result_swap_4_down x0 x1 x2 x3 x5 x6 x7 x8 hn1 hn2 hn3 hn4] at hres
      injection hres with hres
      subst hres
      exact ⟨rfl, (perm_swap_middle [x0,x1,x2,x3] [x5,x6] [x8] x7 0).trans (by simpa using hv.2)⟩
    by_cases hop_left : op = "left"
    · subst hop_left
      rw [result_swap_4_left x0 x1 x2 x3 x5 x6 x7 x8 hn1 hn2 hn3 hn4] at hres
      injection hres with hres
      subst hres
      exact ⟨rfl, (perm_swap_middle [x0,x1,x2] [] [x5,x6,x7,x8] 0 x3).trans (by simpa using hv.2)⟩
    by_cases hop_right : op = "right"
    · subst hop_right
      rw [result_swap_4_right x0 x1 x2 x3 x5 x6 x7 x8 hn1 hn2 hn3 hn4] at hres
      injection hres with hres
      subst hres
      exact ⟨rfl, (perm_swap_middle [x0,x1,x2,x3] [] [x6,x7,x8] x5 0).trans (by simpa using hv.2)⟩
    · simp [result, find_blank, List.find?, hn1, hn2, hn3, hn4, hn5, hn6, hn7, hn8,
        hop_up, hop_down, hop_left, hop_right] at hres
      subst hres
      exact hv
  · subst hz0
    by_cases hop_up : op = "up"
    · subst hop_up
      rw [result_swap_5_up x0 x1 x2 x3 x4 x6 x7 x8 hn1 hn2 hn3 hn4 hn5] at hres
      injection hres with hres
      subst hres
      exact ⟨rfl, (perm_swap_middle [x0,x1] [x3,x4] [x6,x7,x8] 0 x2).trans (by simpa using hv.2)⟩
    by_cases hop_down : op = "down"
    · subst hop_down
      rw [result_swap_5_down x0 x1 x2 x3 x4 x6 x7 x8 hn1 hn2 hn3 hn4 hn5] at hres
      injection hres with hres
      subst hres
      exact ⟨rfl, (perm_swap_middle [x0,x1,x2,x3,x4] [x6,x7] [] x8 0).trans (by simpa using hv.2)⟩
    by_cases hop_left : op = "left"
    · subst hop_left
      rw [result_swap_5_left x0 x1 x2 x3 x4 x6 x7 x8 hn1 hn2 hn3 hn4 hn5] at hres
      injection hres with hres
      subst hres
      exact ⟨rfl, (perm_swap_middle [x0,x1,x2,x3] [] [x6,x7,x8] 0 x4).trans (by simpa using hv.2)⟩
    by_cases hop_right : op = "right"
    · subst hop_right
      rw [result_err_5_right x0 x1 x2 x3 x4 x6 x7 x8 hn1 hn2 hn3 hn4 hn5] at hres
      simp at hres
    · simp [result, find_blank, List.find?, hn1, hn2, hn3, hn4, hn5, hn6, hn7, hn8,
        hop_up, hop_down, hop_left, hop_right] at hres
      subst hres
      exact hv
  · subst hz0
    by_cases hop_up : op = "up"
    · subst hop_up
      rw [result_swap_6_up x0 x1 x2 x3 x4 x5 x7 x8 hn1 hn2 hn3 hn4 hn5 hn6] at hres
      injection hres with hres
      subst hres
      exact ⟨rfl, (perm_swap_middle [x0,x1,x2] [x4,x5] [x7,x8] 0 x3).trans (by simpa using hv.2)⟩
    by_cases hop_down : op = "down"
    · subst hop_down
      rw [result_err_6_down x0 x1 x2 x3 x4 x5 x7 x8 hn1 hn2 hn3 hn4 hn5 hn6] at hres
      simp at hres
    by_cases hop_left : op = "left"
    · subst hop_left
      rw [result_swap_6_left x0 x1 x2 x3 x4 x5 x7 x8 hn1 hn2 hn3 hn4 hn5 hn6] at hres
      injection hres with hres
      subst hres
      exact ⟨rfl, (perm_swap_middle [x0,x1,x2,x3,x4,x5] [x7] [] x8 0).trans (by simpa using hv.2)⟩
    by_cases hop_right : op = "right"
    · subst hop_right
      rw [result_swap_6_right x0 x1 x2 x3 x4 x5 x7 x8 hn1 hn2 hn3 hn4 hn5 hn6] at hres
      injection hres with hres
      subst hres
      exact ⟨rfl, (perm_swap_middle [x0,x1,x2,x3,x4,x5] [] [x8] x7 0).trans (by simpa using hv.2)⟩
    · simp [result, find_blank, List.find?, hn1, hn2, hn3, hn4, hn5, hn6, hn7, hn8,
        hop_up, hop_down, hop_left, hop_right] at hres
      subst hres
      exact hv
  · subst hz0
    by_cases hop_up : op = "up"
    · subst hop_up
      rw [result_swap_7_up x0 x1 x2 x3 x4 x5 x6 x8 hn1 hn2 hn3 hn4 hn5 hn6 hn7] at hres
      injection hres with hres
      subst hres
      exact ⟨rfl, (perm_swap_middle [x0,x1,x2,x3] [x5,x6] [x8] 0 x4).trans (by simpa using hv.2)⟩
    by_cases hop_down : op = "down"
    · subst hop_down
      rw [result_err_7_down x0 x1 x2 x3 x4 x5 x6 x8 hn1 hn2 hn3 hn4 hn5 hn6 hn7] at hres
      simp at hres
    by_cases hop_left : op = "left"
    · subst hop_left
      rw [result_swap_7_left x0 x1 x2 x3 x4 x5 x6 x8 hn1 hn2 hn3 hn4 hn5 hn6 hn7] at hres
      injection hres with hres
      subst hres
      exact ⟨rfl, (perm_swap_middle [x0,x1,x2,x3,x4,x5] [] [x8] 0 x6).trans (by simpa using hv.2)⟩
    by_cases hop_right : op = "right"
    · subst hop_right
      rw [result_swap_7_right x0 x1 x2 x3 x4 x5 x6 x8 hn1 hn2 hn3 hn4 hn5 hn6 hn7] at hres
      injection hres with hres
      subst hres
      exact ⟨rfl, (perm_swap_middle [x0,x1,x2,x3,x4,x5,x6] [] [] x8 0).trans (by simpa using hv.2)⟩
    · simp [result, find_blank, List.find?, hn1, hn2, hn3, hn4, hn5, hn6, hn7, hn8,
        hop_up, hop_down, hop_left, hop_right] at hres
      subst hres
      exact hv
  · subst hz0
    by_cases hop_up : op = "up"
    · subst hop_up
      rw [result_swap_8_up x0 x1 x2 x3 x4 x5 x6 x7 hn1 hn2 hn3 hn4 hn5 hn6 hn7 hn8] at hres
      injection hres with hres
      subst hres
      exact ⟨rfl, (perm_swap_middle [x0,x1,x2,x3,x4] [x6,x7] [] 0 x5).trans (by simpa using hv.2)⟩
    by_cases hop_down : op = "down"
    · subst hop_down
      rw [result_err_8_down x0 x1 x2 x3 x4 x5 x6 x7 hn1 hn2 hn3 hn4 hn5 hn6 hn7 hn8] at hres
      simp at hres
    by_cases hop_left : op = "left"
    · subst hop_left
      rw [result_swap_8_left x0 x1 x2 x3 x4 x5 x6 x7 hn1 hn2 hn3 hn4 hn5 hn6 hn7 hn8] at hres
      injection hres with hres
      subst hres
      exact ⟨rfl, (perm_swap_middle [x0,x1,x2,x3,x4,x5,x6] [] [] 0 x7).trans (by simpa using hv.2)⟩
    by_cases hop_right : op = "right"
    · subst hop_right
      rw [result_err_8_right x0 x1 x2 x3 x4 x5 x6 x7 hn1 hn2 hn3 hn4 hn5 hn6 hn7 hn8] at hres
      simp at hres
    · simp [result, find_blank, List.find?, hn1, hn2, hn3, hn4, hn5, hn6, hn7, hn8,
        hop_up, hop_down, hop_left, hop_right] at hres
      subst hres
      exact hv

/-! ## One legal move preserves validity and solvability parity -/

lemma succs_spec :
    ∀ s, Valid s → ∀ t ∈ succs s, Valid t ∧ is_solvable t = is_solvable s := by
  intro s hv t ht
  obtain ⟨x0, x1, x2, x3, x4, x5, x6, x7, x8, rfl, hz⟩ := valid_destruct hv
  rcases hz with ⟨hz0, hn1, hn2, hn3, hn4, hn5, hn6, hn7, hn8⟩ | ⟨hz0, hn1, hn2, hn3, hn4, hn5, hn6, hn7, hn8⟩ | ⟨hz0, hn1, hn2, hn3, hn4, hn5, hn6, hn7, hn8⟩ | ⟨hz0, hn1, hn2, hn3, hn4, hn5, hn6, hn7, hn8⟩ | ⟨hz0, hn1, hn2, hn3, hn4, hn5, hn6, hn7, hn8⟩ | ⟨hz0, hn1, hn2, hn3, hn4, hn5, hn6, hn7, hn8⟩ | ⟨hz0, hn1, hn2, hn3, hn4, hn5, hn6, hn7, hn8⟩ | ⟨hz0, hn1, hn2, hn3, hn4, hn5, hn6, hn7, hn8⟩ | ⟨hz0, hn1, hn2, hn3, hn4, hn5, hn6, hn7, hn8⟩
  · subst hz0
    have hperm9 : List.Perm [0,x1,x2,x3,x4,x5,x6,x7,x8] [0,1,2,3,4,5,6,7,8] := hv.2
    have hnd : List.Nodup [0,x1,x2,x3,x4,x5,x6,x7,x8] := (List.Perm.nodup_iff hperm9).mpr (by decide)
    rw [succs_blank_0 x1 x2 x3 x4 x5 x6 x7 x8] at ht
    fin_cases ht
    · refine ⟨⟨rfl, (perm_swap_middle [] [x1,x2] [x4,x5,x6,x7,x8] x3 0).trans (by simpa using hv.2)⟩, ?_⟩
      have hpar : inversions [x3,x1,x2,x4,x5,x6,x7,x8] % 2 = inversions [x1,x2,x3,x4,x5,x6,x7,x8] % 2 :=
        inversions_swap_parity [] [x1,x2] [x4,x5,x6,x7,x8] x3 (by simp)
          (by
            intro x hx hxv
            rw [hxv] at hx
            rcases List.mem_cons.mp hx with h2 | h2
            · subst h2
              simp at hnd
            · rcases List.mem_cons.mp h2 with h3 | h3
              · subst h3
                simp at hnd
              · simp at h3)
      have hf1 : ([[x3,x1,x2],[0,x4,x5],[x6,x7,x8]] : State).flatten.filter (fun v => v ≠ 0) = [x3,x1,x2,x4,x5,x6,x7,x8] := by
        simp [hn1, hn2, hn3, hn4, hn5, hn6, hn7, hn8]
      have hf2 : ([[0,x1,x2],[x3,x4,x5],[x6,x7,x8]] : State).flatten.filter (fun v => v ≠ 0) = [x1,x2,x3,x4,x5,x6,x7,x8] := by
        simp [hn1, hn2, hn3, hn4, hn5, hn6, hn7, hn8]
      simp only [is_solvable]
      rw [hf1, hf2, hpar]
    · refine ⟨⟨rfl, (perm_swap_middle [] [] [x2,x3,x4,x5,x6,x7,x8] x1 0).trans (by simpa using hv.2)⟩, ?_⟩
      have hf1 : ([[x1,0,x2],[x3,x4,x5],[x6,x7,x8]] : State).flatten.filter (fun v => v ≠ 0) = [x1,x2,x3,x4,x5,x6,x7,x8] := by
        simp [hn1, hn2, hn3, hn4, hn5, hn6, hn7, hn8]
      have hf2 : ([[0,x1,x2],[x3,x4,x5],[x6,x7,x8]] : State).flatten.filter (fun v => v ≠ 0) = [x1,x2,x3,x4,x5,x6,x7,x8] := by
        simp [hn1, hn2, hn3, hn4, hn5, hn6, hn7, hn8]
      simp only [is_solvable]
      rw [hf1, hf2]
  · subst hz0
    have hperm9 : List.Perm [x0,0,x2,x3,x4,x5,x6,x7,x8] [0,1,2,3,4,5,6,7,8] := hv.2
    have hnd : List.Nodup [x0,0,x2,x3,x4,x5,x6,x7,x8] := (List.Perm.nodup_iff hperm9).mpr (by decide)
    rw [succs_blank_1 x0 x2 x3 x4 x5 x6 x7 x8 hn1] at ht
    fin_cases ht
    · refine ⟨⟨rfl, (perm_swap_middle [x0] [x2,x3] [x5,x6,x7,x8] x4 0).trans (by simpa using hv.2)⟩, ?_⟩
      have hpar : inversions [x0,x4,x2,x3,x5,x6,x7,x8] % 2 = inversions [x0,x2,x3,x4,x5,x6,x7,x8] % 2 :=
        inversions_swap_parity [x0] [x2,x3] [x5,x6,x7,x8] x4 (by simp)
          (by
            intro x hx hxv
            rw [hxv] at hx
            rcases List.mem_cons.mp hx with h2 | h2
            · subst h2
              simp at hnd
            · rcases List.mem_cons.mp h2 with h3 | h3
              · subst h3
                simp at hnd
              · simp at h3)
      have hf1 : ([[x0,x4,x2],[x3,0,x5],[x6,x7,x8]] : State).flatten.filter (fun v => v ≠ 0) = [x0,x4,x2,x3,x5,x6,x7,x8] := by
        simp [hn1, hn2, hn3, hn4, hn5, hn6, hn7, hn8]
      have hf2 : ([[x0,0,x2],[x3,x4,x5],[x6,x7,x8]] : State).flatten.filter (fun v => v ≠ 0) = [x0,x2,x3,x4,x5,x6,x7,x8] := by
        simp [hn1, hn2, hn3, hn4, hn5, hn6, hn7, hn8]
      simp only [is_solvable]
      rw [hf1, hf2, hpar]
    · refine ⟨⟨rfl, (perm_swap_middle [] [] [x2,x3,x4,x5,x6,x7,x8] 0 x0).trans (by simpa using hv.2)⟩, ?_⟩
      have hf1 : ([[0,x0,x2],[x3,x4,x5],[x6,x7,x8]] : State).flatten.filter (fun v => v ≠ 0) = [x0,x2,x3,x4,x5,x6,x7,x8] := by
        simp [hn1, hn2, hn3, hn4, hn5, hn6, hn7, hn8]
      have hf2 : ([[x0,0,x2],[x3,x4,x5],[x6,x7,x8]] : State).flatten.filter (fun v => v ≠ 0) = [x0,x2,x3,x4,x5,x6,x7,x8] := by
        simp [hn1, hn2, hn3, hn4, hn5, hn6, hn7, hn8]
      simp only [is_solvable]
      rw [hf1, hf2]
    · refine ⟨⟨rfl, (perm_swap_middle [x0] [] [x3,x4,x5,x6,x7,x8] x2 0).trans (by simpa using hv.2)⟩, ?_⟩
      have hf1 : ([[x0,x2,0],[x3,x4,x5],[x6,x7,x8]] : State).flatten.filter (fun v => v ≠ 0) = [x0,x2,x3,x4,x5,x6,x7,x8] := by
        simp [hn1, hn2, hn3, hn4, hn5, hn6, hn7, hn8]
      have hf2 : ([[x0,0,x2],[x3,x4,x5],[x6,x7,x8]] : State).flatten.filter (fun v => v ≠ 0) = [x0,x2,x3,x4,x5,x6,x7,x8] := by
        simp [hn1, hn2, hn3, hn4, hn5, hn6, hn7, hn8]
      simp only [is_solvable]
      rw [hf1, hf2]
  · subst hz0
    have hperm9 : List.Perm [x0,x1,0,x3,x4,x5,x6,x7,x8] [0,1,2,3,4,5,6,7,8] := hv.2
    have hnd : List.Nodup [x0,x1,0,x3,x4,x5,x6,x7,x8] := (List.Perm.nodup_iff hperm9).mpr (by decide)
    rw [succs_blank_2 x0 x1 x3 x4 x5 x6 x7 x8 hn1 hn2] at ht
    fin_cases ht
    · refine ⟨⟨rfl, (perm_swap_middle [x0,x1] [x3,x4] [x6,x7,x8] x5 0).trans (by simpa using hv.2)⟩, ?_⟩
      have hpar : inversions [x0,x1,x5,x3,x4,x6,x7,x8] % 2 = inversions [x0,x1,x3,x4,x5,x6,x7,x8] % 2 :=
        inversions_swap_parity [x0,x1] [x3,x4] [x6,x7,x8] x5 (by simp)
          (by
            intro x hx hxv
            rw [hxv] at hx
            rcases List.mem_cons.mp hx with h2 | h2
            · subst h2
              simp at hnd
            · rcases List.mem_cons.mp h2 with h3 | h3
              · subst h3
                simp at hnd
              · simp at h3)
      have hf1 : ([[x0,x1,x5],[x3,x4,0],[x6,x7,x8]] : State).flatten.filter (fun v => v ≠ 0) = [x0,x1,x5,x3,x4,x6,x7,x8] := by
        simp [hn1, hn2, hn3, hn4, hn5, hn6, hn7, hn8]
      have hf2 : ([[x0,x1,0],[x3,x4,x5],[x6,x7,x8]] : State).flatten.filter (fun v => v ≠ 0) = [x0,x1,x3,x4,x5,x6,x7,x8] := by
        simp [hn1, hn2, hn3, hn4, hn5, hn6, hn7, hn8]
      simp only [is_solvable]
      rw [hf1, hf2, hpar]
    · refine ⟨⟨rfl, (perm_swap_middle [x0] [] [x3,x4,x5,x6,x7,x8] 0 x1).trans (by simpa using hv.2)⟩, ?_⟩
      have hf1 : ([[x0,0,x1],[x3,x4,x5],[x6,x7,x8]] : State).flatten.filter (fun v => v ≠ 0) = [x0,x1,x3,x4,x5,x6,x7,x8] := by
        simp [hn1, hn2, hn3, hn4, hn5, hn6, hn7, hn8]
      have hf2 : ([[x0,x1,0],[x3,x4,x5],[x6,x7,x8]] : State).flatten.filter (fun v => v ≠ 0) = [x0,x1,x3,x4,x5,x6,x7,x8] := by
        simp [hn1, hn2, hn3, hn4, hn5, hn6, hn7, hn8]
      simp only [is_solvable]
      rw [hf1, hf2]
  · subst hz0
    have hperm9 : List.Perm [x0,x1,x2,0,x4,x5,x6,x7,x8] [0,1,2,3,4,5,6,7,8] := hv.2
    have hnd : List.Nodup [x0,x1,x2,0,x4,x5,x6,x7,x8] := (List.Perm.nodup_iff hperm9).mpr (by decide)
    rw [succs_blank_3 x0 x1 x2 x4 x5 x6 x7 x8 hn1 hn2 hn3] at ht
    fin_cases ht
    · refine ⟨⟨rfl, (perm_swap_middle [] [x1,x2] [x4,x5,x6,x7,x8] 0 x0).trans (by simpa using hv.2)⟩, ?_⟩
      have hpar : inversions [x1,x2,x0,x4,x5,x6,x7,x8] % 2 = inversions [x0,x1,x2,x4,x5,x6,x7,x8] % 2 :=
        (inversions_swap_parity [] [x1,x2] [x4,x5,x6,x7,x8] x0 (by simp)
          (by
            intro x hx hxv
            rw [hxv] at hx
            rcases List.mem_cons.mp hx with h2 | h2
            · subst h2
              simp at hnd
            · rcases List.mem_cons.mp h2 with h3 | h3
              · subst h3
                simp at hnd
              · simp at h3)).symm
      have hf1 : ([[0,x1,x2],[x0,x4,x5],[x6,x7,x8]] : State).flatten.filter (fun v => v ≠ 0) = [x1,x2,x0,x4,x5,x6,x7,x8] := by
        simp [hn1, hn2, hn3, hn4, hn5, hn6, hn7, hn8]
      have hf2 : ([[x0,x1,x2],[0,x4,x5],[x6,x7,x8]] : State).flatten.filter (fun v => v ≠ 0) = [x0,x1,x2,x4,x5,x6,x7,x8] := by
        simp [hn1, hn2, hn3, hn4, hn5, hn6, hn7, hn8]
      simp only [is_solvable]
      rw [hf1, hf2, hpar]
    · refine ⟨⟨rfl, (perm_swap_middle [x0,x1,x2] [x4,x5] [x7,x8] x6 0).trans (by simpa using hv.2)⟩, ?_⟩
      have hpar : inversions [x0,x1,x2,x6,x4,x5,x7,x8] % 2 = inversions [x0,x1,x2,x4,x5,x6,x7,x8] % 2 :=
        inversions_swap_parity [x0,x1,x2] [x4,x5] [x7,x8] x6 (by simp)
          (by
            intro x hx hxv
            rw [hxv] at hx
            rcases List.mem_cons.mp hx with h2 | h2
            · subst h2
              simp at hnd
            · rcases List.mem_cons.mp h2 with h3 | h3
              · subst h3
                simp at hnd
              · simp at h3)
      have hf1 : ([[x0,x1,x2],[x6,x4,x5],[0,x7,x8]] : State).flatten.filter (fun v => v ≠ 0) = [x0,x1,x2,x6,x4,x5,x7,x8] := by
        simp [hn1, hn2, hn3, hn4, hn5, hn6, hn7, hn8]
      have hf2 : ([[x0,x1,x2],[0,x4,x5],[x6,x7,x8]] : State).flatten.filter (fun v => v ≠ 0) = [x0,x1,x2,x4,x5,x6,x7,x8] := by
        simp [hn1, hn2, hn3, hn4, hn5, hn6, hn7, hn8]
      simp only [is_solvable]
      rw [hf1, hf2, hpar]
    · refine ⟨⟨rfl, (perm_swap_middle [x0,x1,x2] [] [x5,x6,x7,x8] x4 0).trans (by simpa using hv.2)⟩, ?_⟩
      have hf1 : ([[x0,x1,x2],[x4,0,x5],[x6,x7,x8]] : State).flatten.filter (fun v => v ≠ 0) = [x0,x1,x2,x4,x5,x6,x7,x8] := by
        simp [hn1, hn2, hn3, hn4, hn5, hn6, hn7, hn8]
      have hf2 : ([[x0,x1,x2],[0,x4,x5],[x6,x7,x8]] : State).flatten.filter (fun v => v ≠ 0) = [x0,x1,x2,x4,x5,x6,x7,x8] := by
        simp [hn1, hn2, hn3, hn4, hn5, hn6, hn7, hn8]
      simp only [is_solvable]
      rw [hf1, hf2]
  · subst hz0
    have hperm9 : List.Perm [x0,x1,x2,x3,0,x5,x6,x7,x8] [0,1,2,3,4,5,6,7,8] := hv.2
    have hnd : List.Nodup [x0,x1,x2,x3,0,x5,x6,x7,x8] := (List.Perm.nodup_iff hperm9).mpr (by decide)
    rw [succs_blank_4 x0 x1 x2 x3 x5 x6 x7 x8 hn1 hn2 hn3 hn4] at ht
    fin_cases ht
    · refine ⟨⟨rfl, (perm_swap_middle [x0] [x2,x3] [x5,x6,x7,x8] 0 x1).trans (by simpa using hv.2)⟩, ?_⟩
      have hpar : inversions [x0,x2,x3,x1,x5,x6,x7,x8] % 2 = inversions [x0,x1,x2,x3,x5,x6,x7,x8] % 2 :=
        (inversions_swap_parity [x0] [x2,x3] [x5,x6,x7,x8] x1 (by simp)
          (by
            intro x hx hxv
            rw [hxv] at hx
            rcases List.mem_cons.mp hx with h2 | h2
            · subst h2
              simp at hnd
            · rcases List.mem_cons.mp h2 with h3 | h3
              · subst h3
                simp at hnd
              · simp at h3)).symm
      have hf1 : ([[x0,0,x2],[x3,x1,x5],[x6,x7,x8]] : State).flatten.filter (fun v => v ≠ 0) = [x0,x2,x3,x1,x5,x6,x7,x8] := by
        simp [hn1, hn2, hn3, hn4, hn5, hn6, hn7, hn8]
      have hf2 : ([[x0,x1,x2],[x3,0,x5],[x6,x7,x8]] : State).flatten.filter (fun v => v ≠ 0) = [x0,x1,x2,x3,x5,x6,x7,x8] := by
        simp [hn1, hn2, hn3, hn4, hn5, hn6, hn7, hn8]
      simp only [is_solvable]
      rw [hf1, hf2, hpar]
    · refine ⟨⟨rfl, (perm_swap_middle [x0,x1,x2,x3] [x5,x6] [x8] x7 0).trans (by simpa using hv.2)⟩, ?_⟩
      have hpar : inversions [x0,x1,x2,x3,x7,x5,x6,x8] % 2 = inversions [x0,x1,x2,x3,x5,x6,x7,x8] % 2 :=
        inversions_swap_parity [x0,x1,x2,x3] [x5,x6] [x8] x7 (by simp)
          (by
            intro x hx hxv
            rw [hxv] at hx
            rcases List.mem_cons.mp hx with h2 | h2
            · subst h2
              simp at hnd
            · rcases List.mem_cons.mp h2 with h3 | h3
              · subst h3
                simp at hnd
              · simp at h3)
      have hf1 : ([[x0,x1,x2],[x3,x7,x5],[x6,0,x8]] : State).flatten.filter (fun v => v ≠ 0) = [x0,x1,x2,x3,x7,x5,x6,x8] := by
        simp [hn1, hn2, hn3, hn4, hn5, hn6, hn7, hn8]
      have hf2 : ([[x0,x1,x2],[x3,0,x5],[x6,x7,x8]] : State).flatten.filter (fun v => v ≠ 0) = [x0,x1,x2,x3,x5,x6,x7,x8] := by
        simp [hn1, hn2, hn3, hn4, hn5, hn6, hn7, hn8]
      simp only [is_solvable]
      rw [hf1, hf2, hpar]
    · refine ⟨⟨rfl, (perm_swap_middle [x0,x1,x2] [] [x5,x6,x7,x8] 0 x3).trans (by simpa using hv.2)⟩, ?_⟩
      have hf1 : ([[x0,x1,x2],[0,x3,x5],[x6,x7,x8]] : State).flatten.filter (fun v => v ≠ 0) = [x0,x1,x2,x3,x5,x6,x7,x8] := by
        simp [hn1, hn2, hn3, hn4, hn5, hn6, hn7, hn8]
      have hf2 : ([[x0,x1,x2],[x3,0,x5],[x6,x7,x8]] : State).flatten.filter (fun v => v ≠ 0) = [x0,x1,x2,x3,x5,x6,x7,x8] := by
        simp [hn1, hn2, hn3, hn4, hn5, hn6, hn7, hn8]
      simp only [is_solvable]
      rw [hf1, hf2]
    · refine ⟨⟨rfl, (perm_swap_middle [x0,x1,x2,x3] [] [x6,x7,x8] x5 0).trans (by simpa using hv.2)⟩, ?_⟩
      have hf1 : ([[x0,x1,x2],[x3,x5,0],[x6,x7,x8]] : State).flatten.filter (fun v => v ≠ 0) = [x0,x1,x2,x3,x5,x6,x7,x8] := by
        simp [hn1, hn2, hn3, hn4, hn5, hn6, hn7, hn8]
      have hf2 : ([[x0,x1,x2],[x3,0,x5],[x6,x7,x8]] : State).flatten.filter (fun v => v ≠ 0) = [x0,x1,x2,x3,x5,x6,x7,x8] := by
        simp [hn1, hn2, hn3, hn4, hn5, hn6, hn7, hn8]
      simp only [is_solvable]
      rw [hf1, hf2]
  · subst hz0
    have hperm9 : List.Perm [x0,x1,x2,x3,x4,0,x6,x7,x8] [0,1,2,3,4,5,6,7,8] := hv.2
    have hnd : List.Nodup [x0,x1,x2,x3,x4,0,x6,x7,x8] := (List.Perm.nodup_iff hperm9).mpr (by decide)
    rw [succs_blank_5 x0 x1 x2 x3 x4 x6 x7 x8 hn1 hn2 hn3 hn4 hn5] at ht
    fin_cases ht
    · refine ⟨⟨rfl, (perm_swap_middle [x0,x1] [x3,x4] [x6,x7,x8] 0 x2).trans (by simpa using hv.2)⟩, ?_⟩
      have hpar : inversions [x0,x1,x3,x4,x2,x6,x7,x8] % 2 = inversions [x0,x1,x2,x3,x4,x6,x7,x8] % 2 :=
        (inversions_swap_parity [x0,x1] [x3,x4] [x6,x7,x8] x2 (by simp)
          (by
            intro x hx hxv
            rw [hxv] at hx
            rcases List.mem_cons.mp hx with h2 | h2
            · subst h2
              simp at hnd
            · rcases List.mem_cons.mp h2 with h3 | h3
              · subst h3
                simp at hnd
              · simp at h3)).symm
      have hf1 : ([[x0,x1,0],[x3,x4,x2],[x6,x7,x8]] : State).flatten.filter (fun v => v ≠ 0) = [x0,x1,x3,x4,x2,x6,x7,x8] := by
        simp [hn1, hn2, hn3, hn4, hn5, hn6, hn7, hn8]
      have hf2 : ([[x0,x1,x2],[x3,x4,0],[x6,x7,x8]] : State).flatten.filter (fun v => v ≠ 0) = [x0,x1,x2,x3,x4,x6,x7,x8] := by
        simp [hn1, hn2, hn3, hn4, hn5, hn6, hn7, hn8]
      simp only [is_solvable]
      rw [hf1, hf2, hpar]
    · refine ⟨⟨rfl, (perm_swap_middle [x0,x1,x2,x3,x4] [x6,x7] [] x8 0).trans (by simpa using hv.2)⟩, ?_⟩
      have hpar : inversions [x0,x1,x2,x3,x4,x8,x6,x7] % 2 = inversions [x0,x1,x2,x3,x4,x6,x7,x8] % 2 :=
        inversions_swap_parity [x0,x1,x2,x3,x4] [x6,x7] [] x8 (by simp)
          (by
            intro x hx hxv
            rw [hxv] at hx
            rcases List.mem_cons.mp hx with h2 | h2
            · subst h2
              simp at hnd
            · rcases List.mem_cons.mp h2 with h3 | h3
              · subst h3
                simp at hnd
              · simp at h3)
      have hf1 : ([[x0,x1,x2],[x3,x4,x8],[x6,x7,0]] : State).flatten.filter (fun v => v ≠ 0) = [x0,x1,x2,x3,x4,x8,x6,x7] := by
        simp [hn1, hn2, hn3, hn4, hn5, hn6, hn7, hn8]
      have hf2 : ([[x0,x1,x2],[x3,x4,0],[x6,x7,x8]] : State).flatten.filter (fun v => v ≠ 0) = [x0,x1,x2,x3,x4,x6,x7,x8] := by
        simp [hn1, hn2, hn3, hn4, hn5, hn6, hn7, hn8]
      simp only [is_solvable]
      rw [hf1, hf2, hpar]
    · refine ⟨⟨rfl, (perm_swap_middle [x0,x1,x2,x3] [] [x6,x7,x8] 0 x4).trans (by simpa using hv.2)⟩, ?_⟩
      have hf1 : ([[x0,x1,x2],[x3,0,x4],[x6,x7,x8]] : State).flatten.filter (fun v => v ≠ 0) = [x0,x1,x2,x3,x4,x6,x7,x8] := by
        simp [hn1, hn2, hn3, hn4, hn5, hn6, hn7, hn8]
      have hf2 : ([[x0,x1,x2],[x3,x4,0],[x6,x7,x8]] : State).flatten.filter (fun v => v ≠ 0) = [x0,x1,x2,x3,x4,x6,x7,x8] := by
        simp [hn1, hn2, hn3, hn4, hn5, hn6, hn7, hn8]
      simp only [is_solvable]
      rw [hf1, hf2]
  · subst hz0
    have hperm9 : List.Perm [x0,x1,x2,x3,x4,x5,0,x7,x8] [0,1,2,3,4,5,6,7,8] := hv.2
    have hnd : List.Nodup [x0,x1,x2,x3,x4,x5,0,x7,x8] := (List.Perm.nodup_iff hperm9).mpr (by decide)
    rw [succs_blank_6 x0 x1 x2 x3 x4 x5 x7 x8 hn1 hn2 hn3 hn4 hn5 hn6] at ht
    fin_cases ht
    · refine ⟨⟨rfl, (perm_swap_middle [x0,x1,x2] [x4,x5] [x7,x8] 0 x3).trans (by simpa using hv.2)⟩, ?_⟩
      have hpar : inversions [x0,x1,x2,x4,x5,x3,x7,x8] % 2 = inversions [x0,x1,x2,x3,x4,x5,x7,x8] % 2 :=
        (inversions_swap_parity [x0,x1,x2] [x4,x5] [x7,x8] x3 (by simp)
          (by
            intro x hx hxv
            rw [hxv] at hx
            rcases List.mem_cons.mp hx with h2 | h2
            · subst h2
              simp at hnd
            · rcases List.mem_cons.mp h2 with h3 | h3
              · subst h3
                simp at hnd
              · simp at h3)).symm
      have hf1 : ([[x0,x1,x2],[0,x4,x5],[x3,x7,x8]] : State).flatten.filter (fun v => v ≠ 0) = [x0,x1,x2,x4,x5,x3,x7,x8] := by
        simp [hn1, hn2, hn3, hn4, hn5, hn6, hn7, hn8]
      have hf2 : ([[x0,x1,x2],[x3,x4,x5],[0,x7,x8]] : State).flatten.filter (fun v => v ≠ 0) = [x0,x1,x2,x3,x4,x5,x7,x8] := by
        simp [hn1, hn2, hn3, hn4, hn5, hn6, hn7, hn8]
      simp only [is_solvable]
      rw [hf1, hf2, hpar]
    · refine ⟨⟨rfl, (perm_swap_middle [x0,x1,x2,x3,x4,x5] [] [x8] x7 0).trans (by simpa using hv.2)⟩, ?_⟩
      have hf1 : ([[x0,x1,x2],[x3,x4,x5],[x7,0,x8]] : State).flatten.filter (fun v => v ≠ 0) = [x0,x1,x2,x3,x4,x5,x7,x8] := by
        simp [hn1, hn2, hn3, hn4, hn5, hn6, hn7, hn8]
      have hf2 : ([[x0,x1,x2],[x3,x4,x5],[0,x7,x8]] : State).flatten.filter (fun v => v ≠ 0) = [x0,x1,x2,x3,x4,x5,x7,x8] := by
        simp [hn1, hn2, hn3, hn4, hn5, hn6, hn7, hn8]
      simp only [is_solvable]
      rw [hf1, hf2]
  · subst hz0
    have hperm9 : List.Perm [x0,x1,x2,x3,x4,x5,x6,0,x8] [0,1,2,3,4,5,6,7,8] := hv.2
    have hnd : List.Nodup [x0,x1,x2,x3,x4,x5,x6,0,x8] := (List.Perm.nodup_iff hperm9).mpr (by decide)
    rw [succs_blank_7 x0 x1 x2 x3 x4 x5 x6 x8 hn1 hn2 hn3 hn4 hn5 hn6 hn7] at ht
    fin_cases ht
    · refine ⟨⟨rfl, (perm_swap_middle [x0,x1,x2,x3] [x5,x6] [x8] 0 x4).trans (by simpa using hv.2)⟩, ?_⟩
      have hpar : inversions [x0,x1,x2,x3,x5,x6,x4,x8] % 2 = inversions [x0,x1,x2,x3,x4,x5,x6,x8] % 2 :=
        (inversions_swap_parity [x0,x1,x2,x3] [x5,x6] [x8] x4 (by simp)
          (by
            intro x hx hxv
            rw [hxv] at hx
            rcases List.mem_cons.mp hx with h2 | h2
            · subst h2
              simp at hnd
            · rcases List.mem_cons.mp h2 with h3 | h3
              · subst h3
                simp at hnd
              · simp at h3)).symm
      have hf1 : ([[x0,x1,x2],[x3,0,x5],[x6,x4,x8]] : State).flatten.filter (fun v => v ≠ 0) = [x0,x1,x2,x3,x5,x6,x4,x8] := by
        simp [hn1, hn2, hn3, hn4, hn5, hn6, hn7, hn8]
      have hf2 : ([[x0,x1,x2],[x3,x4,x5],[x6,0,x8]] : State).flatten.filter (fun v => v ≠ 0) = [x0,x1,x2,x3,x4,x5,x6,x8] := by
        simp [hn1, hn2, hn3, hn4, hn5, hn6, hn7, hn8]
      simp only [is_solvable]
      rw [hf1, hf2, hpar]
    · refine ⟨⟨rfl, (perm_swap_middle [x0,x1,x2,x3,x4,x5] [] [x8] 0 x6).trans (by simpa using hv.2)⟩, ?_⟩
      have hf1 : ([[x0,x1,x2],[x3,x4,x5],[0,x6,x8]] : State).flatten.filter (fun v => v ≠ 0) = [x0,x1,x2,x3,x4,x5,x6,x8] := by
        simp [hn1, hn2, hn3, hn4, hn5, hn6, hn7, hn8]
      have hf2 : ([[x0,x1,x2],[x3,x4,x5],[x6,0,x8]] : State).flatten.filter (fun v => v ≠ 0) = [x0,x1,x2,x3,x4,x5,x6,x8] := by
        simp [hn1, hn2, hn3, hn4, hn5, hn6, hn7, hn8]
      simp only [is_solvable]
      rw [hf1, hf2]
    · refine ⟨⟨rfl, (perm_swap_middle [x0,x1,x2,x3,x4,x5,x6] [] [] x8 0).trans (by simpa using hv.2)⟩, ?_⟩
      have hf1 : ([[x0,x1,x2],[x3,x4,x5],[x6,x8,0]] : State).flatten.filter (fun v => v ≠ 0) = [x0,x1,x2,x3,x4,x5,x6,x8] := by
        simp [hn1, hn2, hn3, hn4, hn5, hn6, hn7, hn8]
      have hf2 : ([[x0,x1,x2],[x3,x4,x5],[x6,0,x8]] : State).flatten.filter (fun v => v ≠ 0) = [x0,x1,x2,x3,x4,x5,x6,x8] := by
        simp [hn1, hn2, hn3, hn4, hn5, hn6, hn7, hn8]
      simp only [is_solvable]
      rw [hf1, hf2]
  · subst hz0
    have hperm9 : List.Perm [x0,x1,x2,x3,x4,x5,x6,x7,0] [0,1,2,3,4,5,6,7,8] := hv.2
    have hnd : List.Nodup [x0,x1,x2,x3,x4,x5,x6,x7,0] := (List.Perm.nodup_iff hperm9).mpr (by decide)
    rw [succs_blank_8 x0 x1 x2 x3 x4 x5 x6 x7 hn1 hn2 hn3 hn4 hn5 hn6 hn7 hn8] at ht
    fin_cases ht
    · refine ⟨⟨rfl, (perm_swap_middle [x0,x1,x2,x3,x4] [x6,x7] [] 0 x5).trans (by simpa using hv.2)⟩, ?_⟩
      have hpar : inversions [x0,x1,x2,x3,x4,x6,x7,x5] % 2 = inversions [x0,x1,x2,x3,x4,x5,x6,x7] % 2 :=
        (inversions_swap_parity [x0,x1,x2,x3,x4] [x6,x7] [] x5 (by simp)
          (by
            intro x hx hxv
            rw [hxv] at hx
            rcases List.mem_cons.mp hx with h2 | h2
            · subst h2
              simp at hnd
            · rcases List.mem_cons.mp h2 with h3 | h3
              · subst h3
                simp at hnd
              · simp at h3)).symm
      have hf1 : ([[x0,x1,x2],[x3,x4,0],[x6,x7,x5]] : State).flatten.filter (fun v => v ≠ 0) = [x0,x1,x2,x3,x4,x6,x7,x5] := by
        simp [hn1, hn2, hn3, hn4, hn5, hn6, hn7, hn8]
      have hf2 : ([[x0,x1,x2],[x3,x4,x5],[x6,x7,0]] : State).flatten.filter (fun v => v ≠ 0) = [x0,x1,x2,x3,x4,x5,x6,x7] := by
        simp [hn1, hn2, hn3, hn4, hn5, hn6, hn7, hn8]
      simp only [is_solvable]
      rw [hf1, hf2, hpar]
    · refine ⟨⟨rfl, (perm_swap_middle [x0,x1,x2,x3,x4,x5,x6] [] [] 0 x7).trans (by simpa using hv.2)⟩, ?_⟩
      have hf1 : ([[x0,x1,x2],[x3,x4,x5],[x6,0,x7]] : State).flatten.filter (fun v => v ≠ 0) = [x0,x1,x2,x3,x4,x5,x6,x7] := by
        simp [hn1, hn2, hn3, hn4, hn5, hn6, hn7, hn8]
      have hf2 : ([[x0,x1,x2],[x3,x4,x5],[x6,x7,0]] : State).flatten.filter (fun v => v ≠ 0) = [x0,x1,x2,x3,x4,x5,x6,x7] := by
        simp [hn1, hn2, hn3, hn4, hn5, hn6, hn7, hn8]
      simp only [is_solvable]
      rw [hf1, hf2]

/-! ## Encoding a valid state as (blank index, tile sequence) -/

lemma decode_encode :
    ∀ s, Valid s → decodeState (stateBlankIdx s, stateTiles s) = s ∧ stateBlankIdx s < 9 := by
  intro s hv
  obtain ⟨x0, x1, x2, x3, x4, x5, x6, x7, x8, rfl, hz⟩ := valid_destruct hv
  rcases hz with ⟨hz0, hn1, hn2, hn3, hn4, hn5, hn6, hn7, hn8⟩ | ⟨hz0, hn1, hn2, hn3, hn4, hn5, hn6, hn7, hn8⟩ | ⟨hz0, hn1, hn2, hn3, hn4, hn5, hn6, hn7, hn8⟩ | ⟨hz0, hn1, hn2, hn3, hn4, hn5, hn6, hn7, hn8⟩ | ⟨hz0, hn1, hn2, hn3, hn4, hn5, hn6, hn7, hn8⟩ | ⟨hz0, hn1, hn2, hn3, hn4, hn5, hn6, hn7, hn8⟩ | ⟨hz0, hn1, hn2, hn3, hn4, hn5, hn6, hn7, hn8⟩ | ⟨hz0, hn1, hn2, hn3, hn4, hn5, hn6, hn7, hn8⟩ | ⟨hz0, hn1, hn2, hn3, hn4, hn5, hn6, hn7, hn8⟩
  · subst hz0
    constructor
    · simp [decodeState, stateBlankIdx, stateTiles, List.findIdx_cons,
        List.findIdx_nil, Bool.cond_eq_ite, beq_iff_eq,
        List.insertIdx_zero, List.insertIdx_succ_cons, hn1, hn2, hn3, hn4, hn5, hn6, hn7, hn8]
    · simp [stateBlankIdx, List.findIdx_cons, List.findIdx_nil,
        Bool.cond_eq_ite, beq_iff_eq, hn1, hn2, hn3, hn4, hn5, hn6, hn7, hn8]
  · subst hz0
    constructor
    · simp [decodeState, stateBlankIdx, stateTiles, List.findIdx_cons,
        List.findIdx_nil, Bool.cond_eq_ite, beq_iff_eq,
        List.insertIdx_zero, List.insertIdx_succ_cons, hn1, hn2, hn3, hn4, hn5, hn6, hn7, hn8]
    · simp [stateBlankIdx, List.findIdx_cons, List.findIdx_nil,
        Bool.cond_eq_ite, beq_iff_eq, hn1, hn2, hn3, hn4, hn5, hn6, hn7, hn8]
  · subst hz0
    constructor
    · simp [decodeState, stateBlankIdx, stateTiles, List.findIdx_cons,
        List.findIdx_nil, Bool.cond_eq_ite, beq_iff_eq,
        List.insertIdx_zero, List.insertIdx_succ_cons, hn1, hn2, hn3, hn4, hn5, hn6, hn7, hn8]
    · simp [stateBlankIdx, List.findIdx_cons, List.findIdx_nil,
        Bool.cond_eq_ite, beq_iff_eq, hn1, hn2, hn3, hn4, hn5, hn6, hn7, hn8]
  · subst hz0
    constructor
    · simp [decodeState, stateBlankIdx, stateTiles, List.findIdx_cons,
        List.findIdx_nil, Bool.cond_eq_ite, beq_iff_eq,
        List.insertIdx_zero, List.insertIdx_succ_cons, hn1, hn2, hn3, hn4, hn5, hn6, hn7, hn8]
    · simp [stateBlankIdx, List.findIdx_cons, List.findIdx_nil,
        Bool.cond_eq_ite, beq_iff_eq, hn1, hn2, hn3, hn4, hn5, hn6, hn7, hn8]
  · subst hz0
    constructor
    · simp [decodeState, stateBlankIdx, stateTiles, List.findIdx_cons,
        List.findIdx_nil, Bool.cond_eq_ite, beq_iff_eq,
        List.insertIdx_zero, List.insertIdx_succ_cons, hn1, hn2, hn3, hn4, hn5, hn6, hn7, hn8]
    · simp [stateBlankIdx, List.findIdx_cons, List.findIdx_nil,
        Bool.cond_eq_ite, beq_iff_eq, hn1, hn2, hn3, hn4, hn5, hn6, hn7, hn8]
  · subst hz0
    constructor
    · simp [decodeState, stateBlankIdx, stateTiles, List.findIdx_cons,
        List.findIdx_nil, Bool.cond_eq_ite, beq_iff_eq,
        List.insertIdx_zero, List.insertIdx_succ_cons, hn1, hn2, hn3, hn4, hn5, hn6, hn7, hn8]
    · simp [stateBlankIdx, List.findIdx_cons, List.findIdx_nil,
        Bool.cond_eq_ite, beq_iff_eq, hn1, hn2, hn3, hn4, hn5, hn6, hn7, hn8]
  · subst hz0
    constructor
    · simp [decodeState, stateBlankIdx, stateTiles, List.findIdx_cons,
        List.findIdx_nil, Bool.cond_eq_ite, beq_iff_eq,
        List.insertIdx_zero, List.insertIdx_succ_cons, hn1, hn2, hn3, hn4, hn5, hn6, hn7, hn8]
    · simp [stateBlankIdx, List.findIdx_cons, List.findIdx_nil,
        Bool.cond_eq_ite, beq_iff_eq, hn1, hn2, hn3, hn4, hn5, hn6, hn7, hn8]
  · subst hz0
    constructor
    · simp [decodeState, stateBlankIdx, stateTiles, List.findIdx_cons,
        List.findIdx_nil, Bool.cond_eq_ite, beq_iff_eq,
        List.insertIdx_zero, List.insertIdx_succ_cons, hn1, hn2, hn3, hn4, hn5, hn6, hn7, hn8]
    · simp [stateBlankIdx, List.findIdx_cons, List.findIdx_nil,
        Bool.cond_eq_ite, beq_iff_eq, hn1, hn2, hn3, hn4, hn5, hn6, hn7, hn8]
  · subst hz0
    constructor
    · simp [decodeState, stateBlankIdx, stateTiles, List.findIdx_cons,
        List.findIdx_nil, Bool.cond_eq_ite, beq_iff_eq,
        List.insertIdx_zero, List.insertIdx_succ_cons, hn1, hn2, hn3, hn4, hn5, hn6, hn7, hn8]
    · simp [stateBlankIdx, List.findIdx_cons, List.findIdx_nil,
        Bool.cond_eq_ite, beq_iff_eq, hn1, hn2, hn3, hn4, hn5, hn6, hn7, hn8]

/-- C8: every legal move on a valid state is undone by its inverse:
`result` followed by `result` with the inverse operator returns the
original grid. -/
theorem C8_move_inverse_roundtrip :
    ∀ s : State, Valid s → ∀ m ∈ operators s,
      ∃ t, result s m = some t ∧ result t (inverse_op m) = some s := by
  intro s hv m hm
  obtain ⟨x0, x1, x2, x3, x4, x5, x6, x7, x8, rfl, hz⟩ := valid_destruct hv
  rcases hz with ⟨hz0, hn1, hn2, hn3, hn4, hn5, hn6, hn7, hn8⟩ | ⟨hz0, hn1, hn2, hn3, hn4, hn5, hn6, hn7, hn8⟩ | ⟨hz0, hn1, hn2, hn3, hn4, hn5, hn6, hn7, hn8⟩ | ⟨hz0, hn1, hn2, hn3, hn4, hn5, hn6, hn7, hn8⟩ | ⟨hz0, hn1, hn2, hn3, hn4, hn5, hn6, hn7, hn8⟩ | ⟨hz0, hn1, hn2, hn3, hn4, hn5, hn6, hn7, hn8⟩ | ⟨hz0, hn1, hn2, hn3, hn4, hn5, hn6, hn7, hn8⟩ | ⟨hz0, hn1, hn2, hn3, hn4, hn5, hn6, hn7, hn8⟩ | ⟨hz0, hn1, hn2, hn3, hn4, hn5, hn6, hn7, hn8⟩
  · subst hz0
    rw [operators_blank_0 x1 x2 x3 x4 x5 x6 x7 x8] at hm
    fin_cases hm
    · exact ⟨_, result_swap_0_down x1 x2 x3 x4 x5 x6 x7 x8,
        result_swap_3_up x3 x1 x2 x4 x5 x6 x7 x8 hn3 hn1 hn2⟩
    · exact ⟨_, result_swap_0_right x1 x2 x3 x4 x5 x6 x7 x8,
        result_swap_1_left x1 x2 x3 x4 x5 x6 x7 x8 hn1⟩
  · subst hz0
    rw [operators_blank_1 x0 x2 x3 x4 x5 x6 x7 x8 hn1] at hm
    fin_cases hm
    · exact ⟨_, result_swap_1_down x0 x2 x3 x4 x5 x6 x7 x8 hn1,
        result_swap_4_up x0 x4 x2 x3 x5 x6 x7 x8 hn1 hn4 hn2 hn3⟩
    · exact ⟨_, result_swap_1_left x0 x2 x3 x4 x5 x6 x7 x8 hn1,
        result_swap_0_right x0 x2 x3 x4 x5 x6 x7 x8⟩
    · exact ⟨_, result_swap_1_right x0 x2 x3 x4 x5 x6 x7 x8 hn1,
        result_swap_2_left x0 x2 x3 x4 x5 x6 x7 x8 hn1 hn2⟩
  · subst hz0
    rw [operators_blank_2 x0 x1 x3 x4 x5 x6 x7 x8 hn1 hn2] at hm
    fin_cases hm
    · exact ⟨_, result_swap_2_down x0 x1 x3 x4 x5 x6 x7 x8 hn1 hn2,
        result_swap_5_up x0 x1 x5 x3 x4 x6 x7 x8 hn1 hn2 hn5 hn3 hn4⟩
    · exact ⟨_, result_swap_2_left x0 x1 x3 x4 x5 x6 x7 x8 hn1 hn2,
        result_swap_1_right x0 x1 x3 x4 x5 x6 x7 x8 hn1⟩
  · subst hz0
    rw [operators_blank_3 x0 x1 x2 x4 x5 x6 x7 x8 hn1 hn2 hn3] at hm
    fin_cases hm
    · exact ⟨_, result_swap_3_up x0 x1 x2 x4 x5 x6 x7 x8 hn1 hn2 hn3,
        result_swap_0_down x1 x2 x0 x4 x5 x6 x7 x8⟩
    · exact ⟨_, result_swap_3_down x0 x1 x2 x4 x5 x6 x7 x8 hn1 hn2 hn3,
        result_swap_6_up x0 x1 x2 x6 x4 x5 x7 x8 hn1 hn2 hn3 hn6 hn4 hn5⟩
    · exact ⟨_, result_swap_3_right x0 x1 x2 x4 x5 x6 x7 x8 hn1 hn2 hn3,
        result_swap_4_left x0 x1 x2 x4 x5 x6 x7 x8 hn1 hn2 hn3 hn4⟩
  · subst hz0
    rw [operators_blank_4 x0 x1 x2 x3 x5 x6 x7 x8 hn1 hn2 hn3 hn4] at hm
    fin_cases hm
    · exact ⟨_, result_swap_4_up x0 x1 x2 x3 x5 x6 x7 x8 hn1 hn2 hn3 hn4,
        result_swap_1_down x0 x2 x3 x1 x5 x6 x7 x8 hn1⟩
    · exact ⟨_, result_swap_4_down x0 x1 x2 x3 x5 x6 x7 x8 hn1 hn2 hn3 hn4,
        result_swap_7_up x0 x1 x2 x3 x7 x5 x6 x8 hn1 hn2 hn3 hn4 hn7 hn5 hn6⟩
    · exact ⟨_, result_swap_4_left x0 x1 x2 x3 x5 x6 x7 x8 hn1 hn2 hn3 hn4,
        result_swap_3_right x0 x1 x2 x3 x5 x6 x7 x8 hn1 hn2 hn3⟩
    · exact ⟨_, result_swap_4_right x0 x1 x2 x3 x5 x6 x7 x8 hn1 hn2 hn3 hn4,
        result_swap_5_left x0 x1 x2 x3 x5 x6 x7 x8 hn1 hn2 hn3 hn4 hn5⟩
  · subst hz0
    rw [operators_blank_5 x0 x1 x2 x3 x4 x6 x7 x8 hn1 hn2 hn3 hn4 hn5] at hm
    fin_cases hm
    · exact ⟨_, result_swap_5_up x0 x1 x2 x3 x4 x6 x7 x8 hn1 hn2 hn3 hn4 hn5,
        result_swap_2_down x0 x1 x3 x4 x2 x6 x7 x8 hn1 hn2⟩
    · exact ⟨_, result_swap_5_down x0 x1 x2 x3 x4 x6 x7 x8 hn1 hn2 hn3 hn4 hn5,
        result_swap_8_up x0 x1 x2 x3 x4 x8 x6 x7 hn1 hn2 hn3 hn4 hn5 hn8 hn6 hn7⟩
    · exact ⟨_, result_swap_5_left x0 x1 x2 x3 x4 x6 x7 x8 hn1 hn2 hn3 hn4 hn5,
        result_swap_4_right x0 x1 x2 x3 x4 x6 x7 x8 hn1 hn2 hn3 hn4⟩
  · subst hz0
    rw [operators_blank_6 x0 x1 x2 x3 x4 x5 x7 x8 hn1 hn2 hn3 hn4 hn5 hn6] at hm
    fin_cases hm
    · exact ⟨_, result_swap_6_up x0 x1 x2 x3 x4 x5 x7 x8 hn1 hn2 hn3 hn4 hn5 hn6,
        result_swap_3_down x0 x1 x2 x4 x5 x3 x7 x8 hn1 hn2 hn3⟩
    · exact ⟨_, result_swap_6_right x0 x1 x2 x3 x4 x5 x7 x8 hn1 hn2 hn3 hn4 hn5 hn6,
        result_swap_7_left x0 x1 x2 x3 x4 x5 x7 x8 hn1 hn2 hn3 hn4 hn5 hn6 hn7⟩
  · subst hz0
    rw [operators_blank_7 x0 x1 x2 x3 x4 x5 x6 x8 hn1 hn2 hn3 hn4 hn5 hn6 hn7] at hm
    fin_cases hm
    · exact ⟨_, result_swap_7_up x0 x1 x2 x3 x4 x5 x6 x8 hn1 hn2 hn3 hn4 hn5 hn6 hn7,
        result_swap_4_down x0 x1 x2 x3 x5 x6 x4 x8 hn1 hn2 hn3 hn4⟩
    · exact ⟨_, result_swap_7_left x0 x1 x2 x3 x4 x5 x6 x8 hn1 hn2 hn3 hn4 hn5 hn6 hn7,
        result_swap_6_right x0 x1 x2 x3 x4 x5 x6 x8 hn1 hn2 hn3 hn4 hn5 hn6⟩
    · exact ⟨_, result_swap_7_right x0 x1 x2 x3 x4 x5 x6 x8 hn1 hn2 hn3 hn4 hn5 hn6 hn7,
        result_swap_8_left x0 x1 x2 x3 x4 x5 x6 x8 hn1 hn2 hn3 hn4 hn5 hn6 hn7 hn8⟩
  · subst hz0
    rw [operators_blank_8 x0 x1 x2 x3 x4 x5 x6 x7 hn1 hn2 hn3 hn4 hn5 hn6 hn7 hn8] at hm
    fin_cases hm
    · exact ⟨_, result_swap_8_up x0 x1 x2 x3 x4 x5 x6 x7 hn1 hn2 hn3 hn4 hn5 hn6 hn7 hn8,
        result_swap_5_down x0 x1 x2 x3 x4 x6 x7 x5 hn1 hn2 hn3 hn4 hn5⟩
    · exact ⟨_, result_swap_8_left x0 x1 x2 x3 x4 x5 x6 x7 hn1 hn2 hn3 hn4 hn5 hn6 hn7 hn8,
        result_swap_7_right x0 x1 x2 x3 x4 x5 x6 x7 hn1 hn2 hn3 hn4 hn5 hn6 hn7⟩

/-! ## `result` raises exactly for out-of-range down/right moves -/

lemma result_none_iff :
    ∀ s op, Valid s →
      (result s op = none ↔ (op = "down" ∨ op = "right") ∧ op ∉ operators s) := by
  intro s op hv
  obtain ⟨x0, x1, x2, x3, x4, x5, x6, x7, x8, rfl, hz⟩ := valid_destruct hv
  rcases hz with ⟨hz0, hn1, hn2, hn3, hn4, hn5, hn6, hn7, hn8⟩ | ⟨hz0, hn1, hn2, hn3, hn4, hn5, hn6, hn7, hn8⟩ | ⟨hz0, hn1, hn2, hn3, hn4, hn5, hn6, hn7, hn8⟩ | ⟨hz0, hn1, hn2, hn3, hn4, hn5, hn6, hn7, hn8⟩ | ⟨hz0, hn1, hn2, hn3, hn4, hn5, hn6, hn7, hn8⟩ | ⟨hz0, hn1, hn2, hn3, hn4, hn5, hn6, hn7, hn8⟩ | ⟨hz0, hn1, hn2, hn3, hn4, hn5, hn6, hn7, hn8⟩ | ⟨hz0, hn1, hn2, hn3, hn4, hn5, hn6, hn7, hn8⟩ | ⟨hz0, hn1, hn2, hn3, hn4, hn5, hn6, hn7, hn8⟩
  · subst hz0
    by_cases hop_up : op = "up"
    · subst hop_up
      simp [result_swap_0_up x1 x2 x3 x4 x5 x6 x7 x8, operators_blank_0 x1 x2 x3 x4 x5 x6 x7 x8]
    by_cases hop_down : op = "down"
    · subst hop_down
      simp [result_swap_0_down x1 x2 x3 x4 x5 x6 x7 x8, operators_blank_0 x1 x2 x3 x4 x5 x6 x7 x8]
    by_cases hop_left : op = "left"
    · subst hop_left
      simp [result_swap_0_left x1 x2 x3 x4 x5 x6 x7 x8, operators_blank_0 x1 x2 x3 x4 x5 x6 x7 x8]
    by_cases hop_right : op = "right"
    · subst hop_right
      simp [result_swap_0_right x1 x2 x3 x4 x5 x6 x7 x8, operators_blank_0 x1 x2 x3 x4 x5 x6 x7 x8]
    · simp [result, find_blank, List.find?, hn1, hn2, hn3, hn4, hn5,
        hn6, hn7, hn8, hop_up, hop_down, hop_left, hop_right]
  · subst hz0
    by_cases hop_up : op = "up"
    · subst hop_up
      simp [result_swap_1_up x0 x2 x3 x4 x5 x6 x7 x8 hn1, operators_blank_1 x0 x2 x3 x4 x5 x6 x7 x8 hn1]
    by_cases hop_down : op = "down"
    · subst hop_down
      simp [result_swap_1_down x0 x2 x3 x4 x5 x6 x7 x8 hn1, operators_blank_1 x0 x2 x3 x4 x5 x6 x7 x8 hn1]
    by_cases hop_left : op = "left"
    · subst hop_left
      simp [result_swap_1_left x0 x2 x3 x4 x5 x6 x7 x8 hn1, operators_blank_1 x0 x2 x3 x4 x5 x6 x7 x8 hn1]
    by_cases hop_right : op = "right"
    · subst hop_right
      simp [result_swap_1_right x0 x2 x3 x4 x5 x6 x7 x8 hn1, operators_blank_1 x0 x2 x3 x4 x5 x6 x7 x8 hn1]
    · simp [result, find_blank, List.find?, hn1, hn2, hn3, hn4, hn5,
        hn6, hn7, hn8, hop_up, hop_down, hop_left, hop_right]
  · subst hz0
    by_cases hop_up : op = "up"
    · subst hop_up
      simp [result_swap_2_up x0 x1 x3 x4 x5 x6 x7 x8 hn1 hn2, operators_blank_2 x0 x1 x3 x4 x5 x6 x7 x8 hn1 hn2]
    by_cases hop_down : op = "down"
    · subst hop_down
      simp [result_swap_2_down x0 x1 x3 x4 x5 x6 x7 x8 hn1 hn2, operators_blank_2 x0 x1 x3 x4 x5 x6 x7 x8 hn1 hn2]
    by_cases hop_left : op = "left"
    · subst hop_left
      simp [result_swap_2_left x0 x1 x3 x4 x5 x6 x7 x8 hn1 hn2, operators_blank_2 x0 x1 x3 x4 x5 x6 x7 x8 hn1 hn2]
    by_cases hop_right : op = "right"
    · subst hop_right
      simp [result_err_2_right x0 x1 x3 x4 x5 x6 x7 x8 hn1 hn2, operators_blank_2 x0 x1 x3 x4 x5 x6 x7 x8 hn1 hn2]
    · simp [result, find_blank, List.find?, hn1, hn2, hn3, hn4, hn5,
        hn6, hn7, hn8, hop_up, hop_down, hop_left, hop_right]
  · subst hz0
    by_cases hop_up : op = "up"
    · subst hop_up
      simp [result_swap_3_up x0 x1 x2 x4 x5 x6 x7 x8 hn1 hn2 hn3, operators_blank_3 x0 x1 x2 x4 x5 x6 x7 x8 hn1 hn2 hn3]
    by_cases hop_down : op = "down"
    · subst hop_down
      simp [result_swap_3_down x0 x1 x2 x4 x5 x6 x7 x8 hn1 hn2 hn3, operators_blank_3 x0 x1 x2 x4 x5 x6 x7 x8 hn1 hn2 hn3]
    by_cases hop_left : op = "left"
    · subst hop_left
      simp [result_swap_3_left x0 x1 x2 x4 x5 x6 x7 x8 hn1 hn2 hn3, operators_blank_3 x0 x1 x2 x4 x5 x6 x7 x8 hn1 hn2 hn3]
    by_cases hop_right : op = "right"
    · subst hop_right
      simp [result_swap_3_right x0 x1 x2 x4 x5 x6 x7 x8 hn1 hn2 hn3, operators_blank_3 x0 x1 x2 x4 x5 x6 x7 x8 hn1 hn2 hn3]
    · simp [result, find_blank, List.find?, hn1, hn2, hn3, hn4, hn5,
        hn6, hn7, hn8, hop_up, hop_down, hop_left, hop_right]
  · subst hz0
    by_cases hop_up : op = "up"
    · subst hop_up
      simp [result_swap_4_up x0 x1 x2 x3 x5 x6 x7 x8 hn1 hn2 hn3 hn4, operators_blank_4 x0 x1 x2 x3 x5 x6 x7 x8 hn1 hn2 hn3 hn4]
    by_cases hop_down : op = "down"
    · subst hop_down
      simp [result_swap_4_down x0 x1 x2 x3 x5 x6 x7 x8 hn1 hn2 hn3 hn4, operators_blank_4 x0 x1 x2 x3 x5 x6 x7 x8 hn1 hn2 hn3 hn4]
    by_cases hop_left : op = "left"
    · subst hop_left
      simp [result_swap_4_left x0 x1 x2 x3 x5 x6 x7 x8 hn1 hn2 hn3 hn4, operators_blank_4 x0 x1 x2 x3 x5 x6 x7 x8 hn1 hn2 hn3 hn4]
    by_cases hop_right : op = "right"
    · subst hop_right
      simp [result_swap_4_right x0 x1 x2 x3 x5 x6 x7 x8 hn1 hn2 hn3 hn4, operators_blank_4 x0 x1 x2 x3 x5 x6 x7 x8 hn1 hn2 hn3 hn4]
    · simp [result, find_blank, List.find?, hn1, hn2, hn3, hn4, hn5,
        hn6, hn7, hn8, hop_up, hop_down, hop_left, hop_right]
  · subst hz0
    by_cases hop_up : op = "up"
    · subst hop_up
      simp [result_swap_5_up x0 x1 x2 x3 x4 x6 x7 x8 hn1 hn2 hn3 hn4 hn5, operators_blank_5 x0 x1 x2 x3 x4 x6 x7 x8 hn1 hn2 hn3 hn4 hn5]
    by_cases hop_down : op = "down"
    · subst hop_down
      simp [result_swap_5_down x0 x1 x2 x3 x4 x6 x7 x8 hn1 hn2 hn3 hn4 hn5, operators_blank_5 x0 x1 x2 x3 x4 x6 x7 x8 hn1 hn2 hn3 hn4 hn5]
    by_cases hop_left : op = "left"
    · subst hop_left
      simp [result_swap_5_left x0 x1 x2 x3 x4 x6 x7 x8 hn1 hn2 hn3 hn4 hn5, operators_blank_5 x0 x1 x2 x3 x4 x6 x7 x8 hn1 hn2 hn3 hn4 hn5]
    by_cases hop_right : op = "right"
    · subst hop_right
      simp [result_err_5_right x0 x1 x2 x3 x4 x6 x7 x8 hn1 hn2 hn3 hn4 hn5, operators_blank_5 x0 x1 x2 x3 x4 x6 x7 x8 hn1 hn2 hn3 hn4 hn5]
    · simp [result, find_blank, List.find?, hn1, hn2, hn3, hn4, hn5,
        hn6, hn7, hn8, hop_up, hop_down, hop_left, hop_right]
  · subst hz0
    by_cases hop_up : op = "up"
    · subst hop_up
      simp [result_swap_6_up x0 x1 x2 x3 x4 x5 x7 x8 hn1 hn2 hn3 hn4 hn5 hn6, operators_blank_6 x0 x1 x2 x3 x4 x5 x7 x8 hn1 hn2 hn3 hn4 hn5 hn6]
    by_cases hop_down : op = "down"
    · subst hop_down
      simp [result_err_6_down x0 x1 x2 x3 x4 x5 x7 x8 hn1 hn2 hn3 hn4 hn5 hn6, operators_blank_6 x0 x1 x2 x3 x4 x5 x7 x8 hn1 hn2 hn3 hn4 hn5 hn6]
    by_cases hop_left : op = "left"
    · subst hop_left
      simp [result_swap_6_left x0 x1 x2 x3 x4 x5 x7 x8 hn1 hn2 hn3 hn4 hn5 hn6, operators_blank_6 x0 x1 x2 x3 x4 x5 x7 x8 hn1 hn2 hn3 hn4 hn5 hn6]
    by_cases hop_right : op = "right"
    · subst hop_right
      simp [result_swap_6_right x0 x1 x2 x3 x4 x5 x7 x8 hn1 hn2 hn3 hn4 hn5 hn6, operators_blank_6 x0 x1 x2 x3 x4 x5 x7 x8 hn1 hn2 hn3 hn4 hn5 hn6]
    · simp [result, find_blank, List.find?, hn1, hn2, hn3, hn4, hn5,
        hn6, hn7, hn8, hop_up, hop_down, hop_left, hop_right]
  · subst hz0
    by_cases hop_up : op = "up"
    · subst hop_up
      simp [result_swap_7_up x0 x1 x2 x3 x4 x5 x6 x8 hn1 hn2 hn3 hn4 hn5 hn6 hn7, operators_blank_7 x0 x1 x2 x3 x4 x5 x6 x8 hn1 hn2 hn3 hn4 hn5 hn6 hn7]
    by_cases hop_down : op = "down"
    · subst hop_down
      simp [result_err_7_down x0 x1 x2 x3 x4 x5 x6 x8 hn1 hn2 hn3 hn4 hn5 hn6 hn7, operators_blank_7 x0 x1 x2 x3 x4 x5 x6 x8 hn1 hn2 hn3 hn4 hn5 hn6 hn7]
    by_cases hop_left : op = "left"
    · subst hop_left
      simp [result_swap_7_left x0 x1 x2 x3 x4 x5 x6 x8 hn1 hn2 hn3 hn4 hn5 hn6 hn7, operators_blank_7 x0 x1 x2 x3 x4 x5 x6 x8 hn1 hn2 hn3 hn4 hn5 hn6 hn7]
    by_cases hop_right : op = "right"
    · subst hop_right
      simp [result_swap_7_right x0 x1 x2 x3 x4 x5 x6 x8 hn1 hn2 hn3 hn4 hn5 hn6 hn7, operators_blank_7 x0 x1 x2 x3 x4 x5 x6 x8 hn1 hn2 hn3 hn4 hn5 hn6 hn7]
    · simp [result, find_blank, List.find?, hn1, hn2, hn3, hn4, hn5,
        hn6, hn7, hn8, hop_up, hop_down, hop_left, hop_right]
  · subst hz0
    by_cases hop_up : op = "up"
    · subst hop_up
      simp [result_swap_8_up x0 x1 x2 x3 x4 x5 x6 x7 hn1 hn2 hn3 hn4 hn5 hn6 hn7 hn8, operators_blank_8 x0 x1 x2 x3 x4 x5 x6 x7 hn1 hn2 hn3 hn4 hn5 hn6 hn7 hn8]
    by_cases hop_down : op = "down"
    · subst hop_down
      simp [result_err_8_down x0 x1 x2 x3 x4 x5 x6 x7 hn1 hn2 hn3 hn4 hn5 hn6 hn7 hn8, operators_blank_8 x0 x1 x2 x3 x4 x5 x6 x7 hn1 hn2 hn3 hn4 hn5 hn6 hn7 hn8]
    by_cases hop_left : op = "left"
    · subst hop_left
      simp [result_swap_8_left x0 x1 x2 x3 x4 x5 x6 x7 hn1 hn2 hn3 hn4 hn5 hn6 hn7 hn8, operators_blank_8 x0 x1 x2 x3 x4 x5 x6 x7 hn1 hn2 hn3 hn4 hn5 hn6 hn7 hn8]
    by_cases hop_right : op = "right"
    · subst hop_right
      simp [result_err_8_right x0 x1 x2 x3 x4 x5 x6 x7 hn1 hn2 hn3 hn4 hn5 hn6 hn7 hn8, operators_blank_8 x0 x1 x2 x3 x4 x5 x6 x7 hn1 hn2 hn3 hn4 hn5 hn6 hn7 hn8]
    · simp [result, find_blank, List.find?, hn1, hn2, hn3, hn4, hn5,
        hn6, hn7, hn8, hop_up, hop_down, hop_left, hop_right]

/-- C8: applying a legal move and then its inverse (up ↔ down,
left ↔ right) returns the original state, for every legal move on every
valid state. -/
theorem C8_move_then_inverse_returns_original :
    ∀ s : State, Valid s → ∀ m ∈ operators s,
      ∃ t, result s m = some t ∧ result t (inverse_op m) = some s :=
  C8_move_inverse_roundtrip

/-- C8 witness: the round trip evaluated on the easy input and its legal
move "right". -/
theorem C8_move_then_inverse_returns_original_witness :
    ∃ t, result easy_state "right" = some t ∧
      result t (inverse_op "right") = some easy_state :=
  C8_move_then_inverse_returns_original easy_state (by decide) "right" (by decide)

/-- C9 fails as stated: on the (valid) goal grid the operator "down" — one
of the four operators the claim quantifies over — makes `result` read
`state[3]` and raise `IndexError`: no grid at all is returned, so `result`
does not return a grid containing each value exactly once. -/
theorem C9_counterexample :
    Valid goal_state ∧ result goal_state "down" = none := by decide

/-- C9 (amended): whenever `result` returns a grid it still contains each
value 0..8 exactly once ("up"/"left" out-of-bounds moves wrap around via
Python's negative indexing and still swap two cells, and unknown operator
strings return the grid unchanged); `result` fails to return a grid —
raising `IndexError` — exactly when the operator is "down" or "right" and
is not among `operators(state)`. -/
theorem C9_result_preserves_values :
    (∀ s op t, Valid s → result s op = some t → Valid t) ∧
    (∀ s op, Valid s →
      (result s op = none ↔ (op = "down" ∨ op = "right") ∧ op ∉ operators s)) :=
  ⟨result_some_valid, result_none_iff⟩

/-- C9 witness: validity preservation evaluated on the goal grid's "up"
move (a wrap-around move: the blank is in the bottom row). -/
theorem C9_result_preserves_values_witness :
    Valid [[1, 2, 3], [4, 5, 0], [7, 8, 6]] :=
  C9_result_preserves_values.1 goal_state "up" [[1, 2, 3], [4, 5, 0], [7, 8, 6]]
    (by decide) (by decide)

end EightPuzzle

namespace EightPuzzle

lemma operators_length_le (s : State) : (operators s).length ≤ 4 := by
  unfold operators
  cases find_blank s with
  | none => simp
  | some p =>
    obtain ⟨bi, bj⟩ := p
    simp only []
    split_ifs <;> simp

lemma mem_digits_lt {x : Nat} (h : x ∈ ([0,1,2,3,4,5,6,7,8] : List Nat)) : x < 9 := by
  simp at h
  omega

lemma valid_entry_lt {s : State} (hv : Valid s) : ∀ x ∈ s.flatten, x < 9 :=
  fun x hx => mem_digits_lt (hv.2.mem_iff.mp hx)

lemma stateCode_lt {s : State} (hv : Valid s) : stateCode s < 387420489 := by
  obtain ⟨x0, x1, x2, x3, x4, x5, x6, x7, x8, rfl, -⟩ := valid_destruct hv
  have hb := valid_entry_lt hv
  simp only [List.flatten_cons, List.flatten_nil, List.append_nil, List.cons_append,
    List.mem_cons, List.nil_append] at hb
  have h0 : x0 < 9 := hb x0 (by simp)
  have h1 : x1 < 9 := hb x1 (by simp)
  have h2 : x2 < 9 := hb x2 (by simp)
  have h3 : x3 < 9 := hb x3 (by simp)
  have h4 : x4 < 9 := hb x4 (by simp)
  have h5 : x5 < 9 := hb x5 (by simp)
  have h6 : x6 < 9 := hb x6 (by simp)
  have h7 : x7 < 9 := hb x7 (by simp)
  have h8 : x8 < 9 := hb x8 (by simp)
  simp only [stateCode, List.flatten_cons, List.flatten_nil, List.append_nil,
    List.cons_append, List.nil_append, List.foldr_cons, List.foldr_nil]
  omega

lemma stateCode_inj {s t : State} (hs : Valid s) (ht : Valid t)
    (h : stateCode s = stateCode t) : s = t := by
  obtain ⟨x0, x1, x2, x3, x4, x5, x6, x7, x8, rfl, -⟩ := valid_destruct hs
  obtain ⟨y0, y1, y2, y3, y4, y5, y6, y7, y8, rfl, -⟩ := valid_destruct ht
  have hbx := valid_entry_lt hs
  have hby := valid_entry_lt ht
  have hx0 : x0 < 9 := hbx x0 (by simp)
  have hx1 : x1 < 9 := hbx x1 (by simp)
  have hx2 : x2 < 9 := hbx x2 (by simp)
  have hx3 : x3 < 9 := hbx x3 (by simp)
  have hx4 : x4 < 9 := hbx x4 (by simp)
  have hx5 : x5 < 9 := hbx x5 (by simp)
  have hx6 : x6 < 9 := hbx x6 (by simp)
  have hx7 : x7 < 9 := hbx x7 (by simp)
  have hx8 : x8 < 9 := hbx x8 (by simp)
  have hy0 : y0 < 9 := hby y0 (by simp)
  have hy1 : y1 < 9 := hby y1 (by simp)
  have hy2 : y2 < 9 := hby y2 (by simp)
  have hy3 : y3 < 9 := hby y3 (by simp)
  have hy4 : y4 < 9 := hby y4 (by simp)
  have hy5 : y5 < 9 := hby y5 (by simp)
  have hy6 : y6 < 9 := hby y6 (by simp)
  have hy7 : y7 < 9 := hby y7 (by simp)
  have hy8 : y8 < 9 := hby y8 (by simp)
  simp only [stateCode, List.flatten_cons, List.flatten_nil, List.append_nil,
    List.cons_append, List.nil_append, List.foldr_cons, List.foldr_nil] at h
  have e0 : x0 = y0 := by omega
  have e1 : x1 = y1 := by omega
  have e2 : x2 = y2 := by omega
  have e3 : x3 = y3 := by omega
  have e4 : x4 = y4 := by omega
  have e5 : x5 = y5 := by omega
  have e6 : x6 = y6 := by omega
  have e7 : x7 = y7 := by omega
  have e8 : x8 = y8 := by omega
  rw [e0, e1, e2, e3, e4, e5, e6, e7, e8]

lemma nodup_lt_length_le {l : List Nat} {N : Nat} (hnd : l.Nodup)
    (hlt : ∀ x ∈ l, x < N) : l.length ≤ N := by
  have h1 : l.toFinset ⊆ Finset.range N := fun x hx =>
    Finset.mem_range.mpr (hlt x (List.mem_toFinset.mp hx))
  have h2 := Finset.card_le_card h1
  rwa [List.toFinset_card_of_nodup hnd, Finset.card_range] at h2

lemma nodup_valid_length_le {L : List State} (hnd : L.Nodup)
    (hval : ∀ t ∈ L, Valid t) : L.length ≤ 387420489 := by
  have hmapnd : (L.map stateCode).Nodup := by
    apply List.Nodup.map_on ?_ hnd
    intro x hx y hy hxy
    exact stateCode_inj (hval x hx) (hval y hy) hxy
  have hlt : ∀ c ∈ L.map stateCode, c < 387420489 := by
    intro c hc
    obtain ⟨t, htL, rfl⟩ := List.mem_map.mp hc
    exact stateCode_lt (hval t htL)
  have := nodup_lt_length_le hmapnd hlt
  rwa [List.length_map] at this

end EightPuzzle

namespace EightPuzzle

section EngineSpec
variable {C : Type} [LinearOrder C] [Add C] [NatCast C]

lemma expand_spec (hfunc : State → C) (node : Node C) (expl : List State)
    (F : List (Entry C)) (c : Nat) :
    (expand hfunc node expl F c).1.length ≤ F.length + 4 ∧
    ∀ e ∈ (expand hfunc node expl F c).1, e ∈ F ∨ e.2.2.state ∈ succs node.state := by
  have key : ∀ (ops : List String) (F : List (Entry C)) (c : Nat),
      (ops.foldl
        (fun acc op =>
          match result node.state op with
          | none => acc
          | some child_state =>
            if child_state ∈ expl then acc
            else
              let h_cost := hfunc child_state
              let child : Node C :=
                .mk child_state (some node) (some op) (node.depth + 1) (node.path_cost + 1) h_cost
              (acc.1 ++ [(child.f, acc.2, child)], acc.2 + 1))
        (F, c)).1.length ≤ F.length + ops.length ∧
      ∀ e ∈ (ops.foldl
        (fun acc op =>
          match result node.state op with
          | none => acc
          | some child_state =>
            if child_state ∈ expl then acc
            else
              let h_cost := hfunc child_state
              let child : Node C :=
                .mk child_state (some node) (some op) (node.depth + 1) (node.path_cost + 1) h_cost
              (acc.1 ++ [(child.f, acc.2, child)], acc.2 + 1))
        (F, c)).1, e ∈ F ∨ ∃ op ∈ ops, result node.state op = some e.2.2.state := by
    intro ops
    induction ops with
    | nil =>
      intro F c
      exact ⟨by simp, fun e he => Or.inl (by simpa using he)⟩
    | cons op rest ih =>
      intro F c
      rw [List.foldl_cons]
      cases hres : result node.state op with
      | none =>
        obtain ⟨ihl, ihm⟩ := ih F c
        refine ⟨by simpa using le_trans ihl (by simp), fun e he => ?_⟩
        rcases ihm e he with hF | ⟨op', hop', hres'⟩
        · exact Or.inl hF
        · exact Or.inr ⟨op', List.mem_cons_of_mem _ hop', hres'⟩
      | some cs =>
        by_cases hmem : cs ∈ expl
        · simp only [hmem, if_true]
          obtain ⟨ihl, ihm⟩ := ih F c
          refine ⟨le_trans ihl (by simp), fun e he => ?_⟩
          rcases ihm e he with hF | ⟨op', hop', hres'⟩
          · exact Or.inl hF
          · exact Or.inr ⟨op', List.mem_cons_of_mem _ hop', hres'⟩
        · simp only [hmem, if_false]
          obtain ⟨ihl, ihm⟩ := ih
            (F ++ [((Node.mk cs (some node) (some op) (node.depth + 1) (node.path_cost + 1)
              (hfunc cs)).f, c,
              Node.mk cs (some node) (some op) (node.depth + 1) (node.path_cost + 1)
                (hfunc cs))]) (c + 1)
          refine ⟨?_, fun e he => ?_⟩
          · simp only [List.length_append, List.length_cons, List.length_nil] at ihl ⊢
            omega
          · rcases ihm e he with hF | ⟨op', hop', hres'⟩
            · rcases List.mem_append.mp hF with h1 | h1
              · exact Or.inl h1
              · rcases List.mem_singleton.mp h1 with rfl
                exact Or.inr ⟨op, List.mem_cons_self _ _, by simpa using hres⟩
            · exact Or.inr ⟨op', List.mem_cons_of_mem _ hop', hres'⟩
  obtain ⟨hl, hm⟩ := key (operators node.state) F c
  refine ⟨le_trans hl (by have := operators_length_le node.state; omega), fun e he => ?_⟩
  rcases hm e he with hF | ⟨op, hop, hres⟩
  · exact Or.inl hF
  · exact Or.inr (List.mem_filterMap.mpr ⟨op, hop, hres⟩)

end EngineSpec

lemma reachableIn_succ {s0 t u : State} {n : Nat} (h : reachableIn n s0 t = true)
    (hu : u ∈ succs t) : reachableIn (n + 1) s0 u = true := by
  induction n generalizing s0 with
  | zero =>
    rw [reachableIn] at h
    have h' : s0 = t := by simpa using h
    subst h'
    rw [reachableIn]
    refine List.any_eq_true.mpr ⟨u, hu, ?_⟩
    rw [reachableIn]
    simp
  | succ n ih =>
    rw [reachableIn] at h
    rw [reachableIn]
    obtain ⟨w, hw, hwt⟩ := List.any_eq_true.mp h
    exact List.any_eq_true.mpr ⟨w, hw, ih hwt⟩

end EightPuzzle

namespace EightPuzzle

section Termination
variable {C : Type} [LinearOrder C] [Add C] [NatCast C]

lemma eraseCounter_length (x : Entry C) (xs : List (Entry C)) :
    (eraseCounter (x :: xs) (pickMin x xs).2.1).length = xs.length := by
  have hm := pickMin_mem x xs
  have h2 : (List.eraseP (fun e => e.2.1 == (pickMin x xs).2.1) (x :: xs)).length =
      (x :: xs).length - 1 := List.length_eraseP_of_mem hm (by simp)
  simp only [List.length_cons] at h2
  simp only [eraseCounter]
  omega

lemma eraseCounter_subset (l : List (Entry C)) (c : Nat) :
    ∀ e ∈ eraseCounter l c, e ∈ l :=
  fun e he => (List.eraseP_sublist l).subset he

lemma searchLoop_isSome (hfunc : State → C) :
    ∀ (fuel : Nat) (F : List (Entry C)) (expl : List State) (c ne mq : Nat),
      (∀ e ∈ F, Valid e.2.2.state) → expl.Nodup → (∀ t ∈ expl, Valid t) →
      5 * (387420489 - expl.length) + F.length + 1 ≤ fuel →
      (searchLoop hfunc fuel F expl c ne mq).isSome = true := by
  intro fuel
  induction fuel using Nat.strong_induction_on with
  | _ fuel ih =>
    intro F expl c ne mq hF hnd hexpl hfuel
    cases fuel with
    | zero => omega
    | succ n =>
      cases F with
      | nil => simp [searchLoop]
      | cons x xs =>
        cases hgt : goal_test (pickMin x xs).2.2.state with
        | true =>
          rw [searchLoop_goal_step hfunc n x xs expl c ne mq _ rfl hgt]
          rfl
        | false =>
          by_cases hmem : (pickMin x xs).2.2.state ∈ expl
          · rw [searchLoop_skip_step hfunc n x xs expl c ne mq _ rfl hgt hmem]
            apply ih n (by omega)
            · exact fun e he => hF e (eraseCounter_subset _ _ e he)
            · exact hnd
            · exact hexpl
            · have := eraseCounter_length x xs
              simp only [List.length_cons] at hfuel
              omega
          · rw [searchLoop_expand_step hfunc n x xs expl c ne mq _ rfl hgt hmem]
            have hmv : Valid (pickMin x xs).2.2.state := hF _ (pickMin_mem x xs)
            have hnd' : ((pickMin x xs).2.2.state :: expl).Nodup :=
              List.nodup_cons.mpr ⟨hmem, hnd⟩
            have hexpl' : ∀ t ∈ (pickMin x xs).2.2.state :: expl, Valid t := by
              intro t ht
              rcases List.mem_cons.mp ht with rfl | ht2
              · exact hmv
              · exact hexpl t ht2
            have hespec := expand_spec hfunc (pickMin x xs).2.2
              ((pickMin x xs).2.2.state :: expl) (eraseCounter (x :: xs) (pickMin x xs).2.1) c
            apply ih n (by omega)
            · intro e he
              rcases hespec.2 e he with h1 | h1
              · exact hF e (eraseCounter_subset _ _ e h1)
              · exact (succs_spec _ hmv _ h1).1
            · exact hnd'
            · exact hexpl'
            · have hB : expl.length + 1 ≤ 387420489 := by
                have := nodup_valid_length_le hnd' hexpl'
                simpa using this
              have hlen := hespec.1
              rw [eraseCounter_length x xs] at hlen
              simp only [List.length_cons] at hfuel hB ⊢
              omega

end Termination

/-- C3: on every valid initial state — solvable or not — the search loop
terminates after finitely many iterations (some fuel bound makes the fueled
loop return), and an empty frontier returns `(none, nodes_expanded,
max_queue_size)`. -/
theorem C3_search_terminates {C : Type} [LinearOrder C] [Add C] [NatCast C]
    (hfunc : State → C) :
    (∀ s0 : State, Valid s0 →
      ∃ N, ∀ fuel, N ≤ fuel → (graph_search s0 hfunc fuel).isSome = true) ∧
    (∀ (expl : List State) (c ne mq fuel : Nat),
      searchLoop hfunc (fuel + 1) ([] : List (Entry C)) expl c ne mq =
        some (none, ne, mq)) := by
  constructor
  · intro s0 hs0
    refine ⟨5 * 387420489 + 2, fun fuel hfuel => ?_⟩
    apply searchLoop_isSome hfunc fuel
    · intro e he
      rcases List.mem_singleton.mp he with rfl
      exact hs0
    · exact List.nodup_nil
    · simp
    · simp only [List.length_singleton, List.length_nil]
      omega
  · intro expl c ne mq fuel
    rfl

/-- C3 witness: termination on the easy valid input with the zero
heuristic. -/
theorem C3_search_terminates_witness :
    ∃ N, ∀ fuel, N ≤ fuel →
      (graph_search easy_state uniform_cost fuel).isSome = true :=
  (C3_search_terminates uniform_cost).1 easy_state (by decide)

end EightPuzzle
